import Mathlib

/-!
Shallow embedding of the `django-athumb` thumbnailing core
(`athumb/utils.py`, `athumb/fields.py`,
`athumb/management/commands/athumb_regen_field.py`) and proofs about it.

Python strings are modelled as Lean `String`s, with every string
operation the source uses re-implemented by structural recursion over the
character list (so that concrete instances evaluate inside the kernel).
Python's float arithmetic in the geometry engine is modelled by exact
rational arithmetic (`ℚ`); every concrete input used in a theorem below is
exactly representable in binary floating point, so the rational model and
CPython agree on those inputs.
-/

namespace Athumb

/-! ## Python string primitives -/

/-- ASCII lower-casing of one character, as `str.lower` does for ASCII
input (all strings handled by this code base are ASCII). -/
def asciiLower (c : Char) : Char :=
  if 65 ≤ c.toNat ∧ c.toNat ≤ 90 then Char.ofNat (c.toNat + 32) else c

/-- Python `s.lower()` (ASCII fragment). -/
def pyLower (s : String) : String :=
  String.mk (s.data.map asciiLower)

/-- Is `c` an ASCII decimal digit (regex `\d` on ASCII input)? -/
def chIsDigit (c : Char) : Bool :=
  48 ≤ c.toNat && c.toNat ≤ 57

/-- Numeric value of a digit string (most significant first). -/
def digitsVal (l : List Char) : Nat :=
  l.foldl (fun acc c => acc * 10 + (c.toNat - 48)) 0

/-- Python `int(s)` for a string that must consist of one or more digits
(the `\d+` capture group): `none` when the shape is wrong. -/
def pyDigits (l : List Char) : Option Nat :=
  if l ≠ [] ∧ l.all chIsDigit then some (digitsVal l) else none

/-- Python `s.rsplit(sep, 1)` for a one-character separator, presented as
(part before the last separator, optional part after it); when the
separator does not occur the result is `(s, none)` (Python: `[s]`). -/
def rsplit1 (sep : Char) (s : String) : String × Option String :=
  match s.data.reverse.span (fun c => c ≠ sep) with
  | (_, []) => (s, none)
  | (suf, _ :: pre) => (String.mk pre.reverse, some (String.mk suf.reverse))

/-- Python `s.rsplit(sep, 1)[0]`. -/
def rsplitHead (sep : Char) (s : String) : String :=
  (rsplit1 sep s).1

/-- Python `s.rsplit(sep, 1)[-1]`. -/
def rsplitLast (sep : Char) (s : String) : String :=
  match rsplit1 sep s with
  | (w, none) => w
  | (_, some a) => a

/-- Python `os.path.basename` (POSIX): everything after the last `/`. -/
def pyBasename (s : String) : String :=
  rsplitLast '/' s

/-- Worker for `splitChar`: accumulates the current field (reversed). -/
def splitCharAux (sep : Char) : List Char → List Char → List String
  | [], acc => [String.mk acc.reverse]
  | c :: cs, acc =>
    if c = sep then String.mk acc.reverse :: splitCharAux sep cs []
    else splitCharAux sep cs (c :: acc)

/-- Python `s.split(sep)` for a one-character separator: splits at every
occurrence and keeps empty fields (`"a  b".split(" ") == ["a", "", "b"]`). -/
def splitChar (sep : Char) (s : String) : List String :=
  splitCharAux sep s.data []

/-- Worker for `strContains`. -/
def containsAux (pat : List Char) : List Char → Bool
  | [] => pat.isPrefixOf []
  | c :: cs => pat.isPrefixOf (c :: cs) || containsAux pat cs

/-- Python `pat in s` (substring test). -/
def strContains (s pat : String) : Bool :=
  containsAux pat.data s.data

/-- Worker for `pyReplace`; the extra `Nat` is structural fuel (one unit
per consumed character, so `l.length` always suffices). -/
def replaceAux (pat rep : List Char) : Nat → List Char → List Char
  | 0, _ => []
  | _ + 1, [] => []
  | n + 1, c :: cs =>
    if pat ≠ [] ∧ pat.isPrefixOf (c :: cs) then
      rep ++ replaceAux pat rep n (cs.drop (pat.length - 1))
    else c :: replaceAux pat rep n cs

/-- Python `s.replace(pat, rep)`: replaces every non-overlapping
occurrence left to right (the source only uses the non-empty pattern
`"http://"`). -/
def pyReplace (s pat rep : String) : String :=
  String.mk (replaceAux pat.data rep.data s.data.length s.data)

/-- ASCII whitespace, for `str.strip()`. -/
def chSpace (c : Char) : Bool :=
  c = ' ' || c = '\t' || c = '\n' || c = '\r' || c = '\x0b' || c = '\x0c'

/-- Python `s.strip()` (ASCII whitespace fragment). -/
def pyStrip (s : String) : String :=
  String.mk (((s.data.dropWhile chSpace).reverse.dropWhile chSpace).reverse)

/-- Python truthiness of a string-or-`None` value: `None` and `""` are
falsy, every other string truthy. -/
def optStrTruthy : Option String → Bool
  | none => false
  | some s => !(s.data.isEmpty)

/-! ## Geometry engine (`athumb/utils.py`) -/

/-- Unit of a crop token, from the regex `^(\d+)(%|px)$`. -/
inductive CropUnit
  | percent
  | pixels
deriving DecidableEq

/-- Match of `_CROP_PERCENT_PATTERN = ^(\d+)(%|px)$` against a string:
the numeric capture and its unit, or `none` when the pattern fails. -/
def parseCropToken (s : String) : Option (Nat × CropUnit) :=
  match s.data.reverse with
  | '%' :: ds => (pyDigits ds.reverse).map (fun v => (v, CropUnit.percent))
  | 'x' :: 'p' :: ds => (pyDigits ds.reverse).map (fun v => (v, CropUnit.pixels))
  | _ => none

/-- `utils.get_cropping_offset(crop_option, epsilon)`.  A failed regex
match raises `ThumbnailParseError` (modelled as `Except.error`).  For a
percentage the value is `epsilon * value / 100.0`; the result is
`int(max(0, min(value, epsilon)))` — after the `max` the argument is
non-negative, so Python's truncating `int()` is the floor. -/
def get_cropping_offset (crop_option : String) (epsilon : ℚ) : Except String ℤ :=
  match parseCropToken crop_option with
  | none => Except.error ("Unrecognized crop option: " ++ crop_option)
  | some (v, u) =>
    let value : ℚ :=
      match u with
      | CropUnit.percent => epsilon * (v : ℚ) / 100
      | CropUnit.pixels => (v : ℚ)
    Except.ok ⌊max 0 (min value epsilon)⌋

/-- `utils._X_ALIAS_PERCENT` as a lookup. -/
def xAliasPercent (s : String) : Option String :=
  if s = "left" then some "0%"
  else if s = "center" then some "50%"
  else if s = "right" then some "100%"
  else none

/-- `utils._Y_ALIAS_PERCENT` as a lookup. -/
def yAliasPercent (s : String) : Option String :=
  if s = "top" then some "0%"
  else if s = "center" then some "50%"
  else if s = "bottom" then some "100%"
  else none

/-- `utils.parse_crop(crop_option, xy_image, xy_window)`: x/y offsets for
cropping, or `ThumbnailParseError` for a malformed directive. -/
def parse_crop (crop_option : String) (xy_image : ℚ × ℚ) (xy_window : ℚ × ℚ) :
    Except String (ℤ × ℤ) :=
  match splitChar ' ' crop_option with
  | [_single] =>
    let xy :=
      match xAliasPercent crop_option with
      | some xc => (xc, "50%")
      | none =>
        match yAliasPercent crop_option with
        | some yc => ("50%", yc)
        | none => (crop_option, crop_option)
    match get_cropping_offset xy.1 (xy_image.1 - xy_window.1) with
    | Except.error e => Except.error e
    | Except.ok offset_x =>
      match get_cropping_offset xy.2 (xy_image.2 - xy_window.2) with
      | Except.error e => Except.error e
      | Except.ok offset_y => Except.ok (offset_x, offset_y)
  | [xc, yc] =>
    let x_crop := (xAliasPercent xc).getD xc
    let y_crop := (yAliasPercent yc).getD yc
    match get_cropping_offset x_crop (xy_image.1 - xy_window.1) with
    | Except.error e => Except.error e
    | Except.ok offset_x =>
      match get_cropping_offset y_crop (xy_image.2 - xy_window.2) with
      | Except.error e => Except.error e
      | Except.ok offset_y => Except.ok (offset_x, offset_y)
  | _ => Except.error ("Unrecognized crop option: " ++ crop_option)

/-- `utils.round_to_int` at its (only) call sites, where the argument is a
Python float: `int(round(number, 0))`.  Python 3's `round` rounds half to
even, and `int()` of the already-integral result is the identity. -/
def round_to_int (q : ℚ) : ℤ :=
  let f := ⌊q⌋
  let r := q - (f : ℚ)
  if r < 1 / 2 then f
  else if 1 / 2 < r then f + 1
  else if f % 2 = 0 then f else f + 1

/-! ## The Image Codec collaborator (PIL), modelled as a free algebra

A decoded image is represented by the tree of codec operations that
produced it, with the observables the source reads (`image.size`,
`image.mode`, `'transparency' in image.info`) computed recursively.
`image.copy()` is the identity on this value model. -/

/-- A PIL image value: the original decode plus the codec calls applied. -/
inductive PImage
  | source (w h : ℕ) (mode : String) (transparency : Bool)
  | convertOp (base : PImage) (mode : String)
  | resizeOp (base : PImage) (w h : ℕ)
  | cropRectOp (base : PImage) (left upper right lower : ℤ)
deriving DecidableEq

/-- `image.size[0]`.  `Image.crop((l, u, r, b))` yields width `r - l`. -/
def PImage.width : PImage → ℕ
  | PImage.source w _ _ _ => w
  | PImage.convertOp b _ => b.width
  | PImage.resizeOp _ w _ => w
  | PImage.cropRectOp _ l _ r _ => (r - l).toNat

/-- `image.size[1]`. -/
def PImage.height : PImage → ℕ
  | PImage.source _ h _ _ => h
  | PImage.convertOp b _ => b.height
  | PImage.resizeOp _ _ h => h
  | PImage.cropRectOp _ _ u _ low => (low - u).toNat

/-- `image.mode`. -/
def PImage.mode : PImage → String
  | PImage.source _ _ m _ => m
  | PImage.convertOp _ m => m
  | PImage.resizeOp b _ _ => b.mode
  | PImage.cropRectOp b _ _ _ _ => b.mode

/-- `'transparency' in image.info` (carried along by the codec). -/
def PImage.transparency : PImage → Bool
  | PImage.source _ _ _ t => t
  | PImage.convertOp b _ => b.transparency
  | PImage.resizeOp b _ _ => b.transparency
  | PImage.cropRectOp b _ _ _ _ => b.transparency

/-- `utils.convert_colorspace(image, colorspace)`. -/
def convert_colorspace (image : PImage) (colorspace : String) : PImage :=
  if colorspace = "RGB" then
    if image.mode = "RGBA" then image
    else if image.mode = "P" ∧ image.transparency then PImage.convertOp image "RGBA"
    else PImage.convertOp image "RGB"
  else if colorspace = "GRAY" then PImage.convertOp image "L"
  else image

/-- `utils.scale(image, target_size, crop_option, upscale)`.  The source
converts the image size to floats, takes per-axis factors
`target / image`, picks `max` when `crop_option` is truthy else `min`,
and resizes only when `factor < 1 or upscale`.  The computed dimensions
are non-negative, so the `Int.toNat` conversions are lossless. -/
def scale (image : PImage) (target_size : ℕ × ℕ) (crop_option : Option String)
    (upscale : Bool) : PImage :=
  let x_image : ℚ := image.width
  let y_image : ℚ := image.height
  let factors : ℚ × ℚ := ((target_size.1 : ℚ) / x_image, (target_size.2 : ℚ) / y_image)
  let factor := if optStrTruthy crop_option then max factors.1 factors.2
    else min factors.1 factors.2
  if factor < 1 ∨ upscale then
    PImage.resizeOp image (round_to_int (x_image * factor)).toNat
      (round_to_int (y_image * factor)).toNat
  else image

/-- `utils.crop(image, target_size, crop_option)`: parses the crop
directive against the float image size and crops to the rectangle
`(x_offset, y_offset, target_w + x_offset, target_h + y_offset)`. -/
def crop (image : PImage) (target_size : ℕ × ℕ) (crop_option : String) :
    Except String PImage :=
  let x_image : ℚ := image.width
  let y_image : ℚ := image.height
  match parse_crop crop_option (x_image, y_image) ((target_size.1 : ℚ), (target_size.2 : ℚ)) with
  | Except.error e => Except.error e
  | Except.ok offsets =>
    Except.ok (PImage.cropRectOp image offsets.1 offsets.2
      ((target_size.1 : ℤ) + offsets.1) ((target_size.2 : ℤ) + offsets.2))

/-! ## Field configuration and the thumbnail pipeline (`athumb/fields.py`) -/

/-- The Python value found under `thumb_options["size"]`: the source
checks `isinstance(size, tuple)` at run time, so a non-tuple value is
representable. -/
inductive SizeSpec
  | tup (w h : ℕ)
  | notTuple
deriving DecidableEq

/-- One thumbnail spec's options dict.  `upscale` is read with
`.get("upscale", True)` (absent key defaults to `True`); `crop` is read
with `.get("crop")` (absent key is `None`, and only its truthiness is
ever consulted). -/
structure ThumbOptions where
  size : SizeSpec
  upscale : Option Bool
  crop : Option String
deriving DecidableEq

/-- The per-field configuration consumed by `ImageWithThumbsFieldFile`:
the ordered `thumbs` sequence and the `thumbnail_format` override
(`None` or a string). -/
structure FieldCfg where
  thumbs : List (String × ThumbOptions)
  thumbnailFormat : Option String
deriving DecidableEq

/-- `ImageWithThumbsFieldFile.get_thumbnail_format` (`self.name` is the
stored file's name).  A truthy override is lower-cased; otherwise the
result is `self.name.rsplit(".", 1)[-1]`, untouched. -/
def get_thumbnail_format (field : FieldCfg) (selfName : String) : String :=
  match field.thumbnailFormat with
  | some f => if !(f.data.isEmpty) then pyLower f else rsplitLast '.' selfName
  | none => rsplitLast '.' selfName

/-- `ImageWithThumbsFieldFile._calc_thumb_filename(thumb_name)`. -/
def calc_thumb_filename (field : FieldCfg) (selfName thumb_name : String) : String :=
  let file_name := rsplitHead '.' selfName
  let file_extension := get_thumbnail_format field selfName
  file_name ++ "_" ++ thumb_name ++ "." ++ file_extension

/-- Exceptions raised inside one variant of the pipeline.  (The classes
live in `athumb/exceptions.py`, which only declares them; §7 of the spec
distinguishes the unreadable-image error from generic I/O.) -/
inductive PipeErr
  | unreadableSize (msg : String)
  | thumbnailParse (msg : String)
deriving DecidableEq

/-- One stored thumbnail: the filename handed to `storage.save`, the
image value that was encoded, and the encoding format. -/
structure ThumbArtifact where
  filename : String
  image : PImage
  format : String
deriving DecidableEq

/-- `ImageWithThumbsFieldFile._create_thumbnail(image, size, crop_option,
upscale)`: colorspace-normalize, scale, and crop when `crop_option` is
truthy. -/
def create_thumbnail (image : PImage) (size : ℕ × ℕ) (crop_option : Option String)
    (upscale : Bool) : Except String PImage :=
  let image1 := convert_colorspace image "RGB"
  let image2 := scale image1 size crop_option upscale
  match crop_option with
  | some co => if !(co.data.isEmpty) then crop image2 size co else Except.ok image2
  | none => Except.ok image2

/-- `ImageWithThumbsFieldFile.create_and_store_thumb(image, thumb_name,
thumb_options)`.  A non-tuple `size` raises
`UploadedImageIsUnreadableError`; note the source replaces any truthy
crop directive by the literal `"center"` (`crop_option = "center" if crop
else None`).  `storage.save` is the Storage collaborator and is assumed
to succeed (§6); the artifact is returned for the caller to record. -/
def create_and_store_thumb (field : FieldCfg) (selfName : String) (image : PImage)
    (thumb_name : String) (thumb_options : ThumbOptions) : Except PipeErr ThumbArtifact :=
  match thumb_options.size with
  | SizeSpec.notTuple => Except.error (PipeErr.unreadableSize "incorrect size specifications")
  | SizeSpec.tup w h =>
    let upscale := thumb_options.upscale.getD true
    let crop_option : Option String :=
      if optStrTruthy thumb_options.crop then some "center" else none
    let thumb_filename := calc_thumb_filename field selfName thumb_name
    let file_extension := get_thumbnail_format field selfName
    match create_thumbnail image (w, h) crop_option upscale with
    | Except.error e => Except.error (PipeErr.thumbnailParse e)
    | Except.ok image2 =>
      Except.ok { filename := thumb_filename, image := image2, format := file_extension }

/-- The bytes handed to `generate_thumbs`, abstracted to the one question
the code asks of them: what `PIL.Image.open` yields (`none` models the
`"cannot identify image file"` `IOError`). -/
structure ContentModel where
  decoded : Option PImage
deriving DecidableEq

/-- Errors escaping `generate_thumbs`. -/
inductive GenErr
  | decodeIOError (msg : String)
  | variantErr (e : PipeErr)
deriving DecidableEq

deriving instance DecidableEq for Except

/-- Observable outcome of `generate_thumbs`: the propagated result, the
artifacts that reached `storage.save` (in order), and the variants whose
loop iteration was entered (in order). -/
structure GenOutcome where
  result : Except GenErr Unit
  stored : List ThumbArtifact
  attempted : List String
deriving DecidableEq

/-- The `for thumb in self.field.thumbs` loop of `generate_thumbs`: each
iteration works on `image.copy()` (identity in the value model) and an
uncaught exception aborts the loop, leaving earlier stores in place. -/
def generateLoop (field : FieldCfg) (selfName : String) (image : PImage) :
    List (String × ThumbOptions) → List ThumbArtifact → List String → GenOutcome
  | [], stored, attempted =>
    { result := Except.ok (), stored := stored, attempted := attempted }
  | (thumb_name, thumb_options) :: rest, stored, attempted =>
    match create_and_store_thumb field selfName image thumb_name thumb_options with
    | Except.ok art =>
      generateLoop field selfName image rest (stored ++ [art]) (attempted ++ [thumb_name])
    | Except.error e =>
      { result := Except.error (GenErr.variantErr e), stored := stored,
        attempted := attempted ++ [thumb_name] }

/-- `ImageWithThumbsFieldFile.generate_thumbs(name, content)`: seeks,
decodes once, then loops over the configured thumbs.  The `name`
argument is accepted but never used by the source body. -/
def generate_thumbs (field : FieldCfg) (selfName : String) (name : String)
    (content : ContentModel) : GenOutcome :=
  match content.decoded with
  | none =>
    { result := Except.error (GenErr.decodeIOError "cannot identify image file"),
      stored := [], attempted := [] }
  | some image => generateLoop field selfName image field.thumbs [] []

/-! ## `save` and `delete` (`athumb/fields.py`) -/

/-- Python 3 attribute lookup of `exc.message` on a caught `IOError`:
`BaseException.message` was removed in Python 3 (this code base is
Python 3: it uses f-strings and `Image.Resampling`), so the lookup finds
no attribute — the exception's text lives in `exc.args`/`str(exc)`, not
in a `message` attribute.  `none` models the `AttributeError` raised at
`fields.py` line 104. -/
def pyExcMessageAttr (_argsText : String) : Option String :=
  none

/-- Exceptions escaping `ImageWithThumbsFieldFile.save`. -/
inductive SaveErr
  | attributeError
  | unreadable (msg : String)
  | reraisedIO (msg : String)
  | uncaught (e : PipeErr)
deriving DecidableEq

/-- Observable outcome of `save`: whether `super().save` stored the
original, the thumbnail artifacts stored, and the propagated result. -/
structure SaveOutcome where
  originalSaved : Bool
  stored : List ThumbArtifact
  result : Except SaveErr Unit
deriving DecidableEq

/-- `ImageWithThumbsFieldFile.save(name, content, save)`: stores the
original via `super().save`, then runs `generate_thumbs` under
`except IOError as exc`, whose handler tests
`"cannot identify" in exc.message or "bad EPS header" in exc.message`.
The non-`IOError` exceptions from a variant propagate unhandled. -/
def save (field : FieldCfg) (selfName : String) (name : String)
    (content : ContentModel) : SaveOutcome :=
  let gen := generate_thumbs field selfName name content
  match gen.result with
  | Except.ok _ =>
    { originalSaved := true, stored := gen.stored, result := Except.ok () }
  | Except.error (GenErr.decodeIOError msg) =>
    match pyExcMessageAttr msg with
    | none =>
      { originalSaved := true, stored := gen.stored,
        result := Except.error SaveErr.attributeError }
    | some m =>
      if strContains m "cannot identify" || strContains m "bad EPS header" then
        { originalSaved := true, stored := gen.stored,
          result := Except.error (SaveErr.unreadable
            "We were unable to read the uploaded image.") }
      else
        { originalSaved := true, stored := gen.stored,
          result := Except.error (SaveErr.reraisedIO msg) }
  | Except.error (GenErr.variantErr e) =>
    { originalSaved := true, stored := gen.stored,
      result := Except.error (SaveErr.uncaught e) }

/-- Observable outcome of `delete`: the thumbnail filenames whose
`storage.delete` was reached (in order), whether `super().delete` ran,
and the propagated result. -/
structure DeleteOutcome where
  attempted : List String
  originalDeleted : Bool
  result : Except String Unit
deriving DecidableEq

/-- The `for thumb in self.field.thumbs` loop of `delete`.  `raisesOn`
says which filenames make the Storage collaborator's `delete` raise a
`StorageError`; the loop body has no exception handling, so a raise
propagates immediately. -/
def deleteLoop (field : FieldCfg) (selfName : String) (raisesOn : String → Bool) :
    List (String × ThumbOptions) → List String → DeleteOutcome
  | [], attempted =>
    { attempted := attempted, originalDeleted := true, result := Except.ok () }
  | (thumb_name, _) :: rest, attempted =>
    let thumb_filename := calc_thumb_filename field selfName thumb_name
    if raisesOn thumb_filename then
      { attempted := attempted ++ [thumb_filename], originalDeleted := false,
        result := Except.error ("StorageError: " ++ thumb_filename) }
    else deleteLoop field selfName raisesOn rest (attempted ++ [thumb_filename])

/-- `ImageWithThumbsFieldFile.delete(save)`: deletes every thumbnail,
then `super().delete(save)` deletes the original. -/
def delete (field : FieldCfg) (selfName : String) (raisesOn : String → Bool) :
    DeleteOutcome :=
  deleteLoop field selfName raisesOn field.thumbs []

/-- `ImageWithThumbsField.__init__`: `kwargs.pop("thumbs", ())` and
`kwargs.pop("thumbnail_format", "JPEG")`.  The outer `Option` is kwarg
presence; the inner value of `thumbnailFormatKw` may itself be Python
`None`.  (The `validators`/`max_length` defaults are framework glue with
no bearing on the claims.) -/
def imageWithThumbsFieldInit (thumbsKw : Option (List (String × ThumbOptions)))
    (thumbnailFormatKw : Option (Option String)) : FieldCfg :=
  { thumbs := thumbsKw.getD [],
    thumbnailFormat := thumbnailFormatKw.getD (some "JPEG") }

/-! ## URL generation and its cache (`athumb/fields.py` lines 34-79) -/

/-- Collaborators and configuration visible to `generate_url`:
`storageUrl` is the storage backend's URL resolver (each read of the
`self.url` property calls it on `self.name`), and `mediaCacheBuster` is
the `MEDIA_CACHE_BUSTER` setting. -/
structure UrlEnv where
  storageUrl : String → String
  selfName : String
  field : FieldCfg
  mediaCacheBuster : String

/-- The cache collaborator's state: most recent entry first. -/
def cacheGet (cache : List (String × String)) (k : String) : Option String :=
  (cache.find? (fun p => p.1 == k)).map Prod.snd

/-- `cache.set(key, value, timeout)` (the TTL does not affect values). -/
def cacheSet (cache : List (String × String)) (k v : String) : List (String × String) :=
  (k, v) :: cache

/-- Observable outcome of one `generate_url` call: the returned URL, the
cache state afterwards, and how many times the Storage URL resolver was
invoked (one per read of the `self.url` property). -/
structure UrlOutcome where
  url : String
  cache : List (String × String)
  storageUrlCalls : ℕ
deriving DecidableEq

/-- The cache-miss tail of `generate_url` (everything after the cache
probe): derive the thumbnail filename, rebuild the URL around it, apply
the cache-buster and SSL rewrites, and store under `cache_key` when one
was computed.  `calls` counts `self.url` reads made before this point. -/
def generateUrlMiss (env : UrlEnv) (cache : List (String × String))
    (thumb_name : String) (ssl_mode cache_bust : Bool) (cacheKey : Option String)
    (calls : ℕ) : UrlOutcome :=
  let new_filename := calc_thumb_filename env.field env.selfName thumb_name
  let selfUrl := env.storageUrl env.selfName
  let url_str := rsplitHead '?' selfUrl
  let url_minus_filename := rsplitHead '/' url_str
  let new_url := url_minus_filename ++ "/" ++ pyBasename new_filename
  let new_url :=
    if cache_bust && optStrTruthy (some env.mediaCacheBuster) then
      new_url ++ "?cbust=" ++ env.mediaCacheBuster
    else new_url
  let new_url := if ssl_mode then pyReplace new_url "http://" "https://" else new_url
  if optStrTruthy cacheKey then
    { url := new_url, cache := cacheSet cache (cacheKey.getD "") new_url,
      storageUrlCalls := calls + 1 }
  else { url := new_url, cache := cache, storageUrlCalls := calls + 1 }

/-- `ImageWithThumbsFieldFile.generate_url(thumb_name, ssl_mode,
check_cache, cache_bust)`.  With `check_cache` the cache key is built
from a fresh `self.url` read (one resolver call even on a hit); a truthy
cached value is returned verbatim. -/
def generate_url (env : UrlEnv) (cache : List (String × String)) (thumb_name : String)
    (ssl_mode check_cache cache_bust : Bool) : UrlOutcome :=
  let sslKeyTag := if ssl_mode then "_ssl" else ""
  if check_cache then
    let selfUrl := env.storageUrl env.selfName
    let cache_key := pyStrip ("Thumbcache_" ++ selfUrl ++ "_" ++ thumb_name ++ sslKeyTag)
    match cacheGet cache cache_key with
    | some v =>
      if optStrTruthy (some v) then { url := v, cache := cache, storageUrlCalls := 1 }
      else generateUrlMiss env cache thumb_name ssl_mode cache_bust (some cache_key) 1
    | none => generateUrlMiss env cache thumb_name ssl_mode cache_bust (some cache_key) 1
  else generateUrlMiss env cache thumb_name ssl_mode cache_bust none 0

/-! ## Batch regeneration (`athumb_regen_field.py`) -/

/-- One model instance as the command sees it: its id and the file
field's reference.  `none` models a falsy file (`if not file:`). -/
structure RegenInstance where
  instId : ℕ
  file : Option String
deriving DecidableEq

/-- Collaborators of one regeneration run: the field configuration and
the combined Storage-read/codec oracle (`none` models `IOError` from
`file.read()`, i.e. the original missing in storage). -/
structure RegenEnv where
  field : FieldCfg
  readContent : String → Option ContentModel

/-- Per-item classification, following the command's print lines and
counters.  In the printed summary both `skippedAlready` ("Already
processed") and `skippedExists` ("All thumbnails exist") increment the
`skipped_exists` counter. -/
inductive Classification
  | skippedNoFile
  | skippedAlready
  | skippedExists
  | errorMissingSource
  | errorCorrupt
  | processedOk
deriving DecidableEq

/-- `Command.get_missing_thumbnails(file_field)` against a storage state
(list of existing filenames): the thumb names whose filename fails the
`storage.exists` check, in configured order.  (The `hasattr` guard is
always satisfied for the fields modelled here.) -/
def get_missing_thumbnails (env : RegenEnv) (storage : List String)
    (selfName : String) : List String :=
  env.field.thumbs.filterMap
    (fun t => if calc_thumb_filename env.field selfName t.1 ∈ storage then none
      else some t.1)

/-- `Command.needs_regeneration(file_field)`. -/
def needs_regeneration (env : RegenEnv) (force : Bool) (storage : List String)
    (selfName : String) : Bool :=
  if force then true else !(get_missing_thumbnails env storage selfName).isEmpty

/-- The read-and-generate tail of one loop iteration (`fdat = file.read()`
onward).  A read failure is the caught `IOError` ("File missing in
storage"); `generate_thumbs` runs under `except IOError` (the corrupt
image case).  The `ContentFile(fdat)` `ValueError` branch is unreachable
after a successful read and is not modelled.  Modelled from the spec:
`athumb/exceptions.py` is not part of the sources, so per §4.5/§7 the
unreadable-image error is treated as per-item and non-fatal, while a
`ThumbnailParseError` (configuration error) propagates and kills the
run.  Returns (classification, tracker, storage). -/
def regenReadAndGen (env : RegenEnv) (fname file_name : String)
    (tracker storage : List String) :
    Except PipeErr (Classification × List String × List String) :=
  match env.readContent fname with
  | none => Except.ok (Classification.errorMissingSource, tracker, storage)
  | some content =>
    let gen := generate_thumbs env.field fname file_name content
    let storage2 := storage ++ gen.stored.map (fun a => a.filename)
    match gen.result with
    | Except.ok _ => Except.ok (Classification.processedOk, file_name :: tracker, storage2)
    | Except.error (GenErr.decodeIOError _) =>
      Except.ok (Classification.errorCorrupt, tracker, storage2)
    | Except.error (GenErr.variantErr (PipeErr.unreadableSize _)) =>
      Except.ok (Classification.errorCorrupt, tracker, storage2)
    | Except.error (GenErr.variantErr (PipeErr.thumbnailParse m)) =>
      Except.error (PipeErr.thumbnailParse m)

/-- One iteration of the `for instance in instances` loop of
`Command.regenerate_thumbs`: no-file skip, ledger skip, existence check
(recomputing the missing set, as the source does), then read/generate. -/
def regenStep (env : RegenEnv) (force : Bool) (inst : RegenInstance)
    (tracker storage : List String) :
    Except PipeErr (Classification × List String × List String) :=
  match inst.file with
  | none => Except.ok (Classification.skippedNoFile, tracker, storage)
  | some fname =>
    let file_name := pyBasename fname
    if file_name ∈ tracker then Except.ok (Classification.skippedAlready, tracker, storage)
    else if needs_regeneration env force storage fname then
      regenReadAndGen env fname file_name tracker storage
    else if get_missing_thumbnails env storage fname = [] then
      Except.ok (Classification.skippedExists, file_name :: tracker, storage)
    else regenReadAndGen env fname file_name tracker storage

/-- The instance loop, threading the run-scoped `regen_tracker` ledger
and the storage state; an uncaught exception aborts the whole command. -/
def regenGo (env : RegenEnv) (force : Bool) :
    List RegenInstance → List String → List String →
    Except PipeErr (List Classification × List String)
  | [], _tracker, storage => Except.ok ([], storage)
  | inst :: rest, tracker, storage =>
    match regenStep env force inst tracker storage with
    | Except.error e => Except.error e
    | Except.ok (c, tracker2, storage2) =>
      match regenGo env force rest tracker2 storage2 with
      | Except.error e => Except.error e
      | Except.ok (cs, storageEnd) => Except.ok (c :: cs, storageEnd)

/-- `Command.regenerate_thumbs` over a dataset and initial storage state:
per-item classifications in order plus the final storage state.  The
ledger starts empty on every run (it is never persisted). -/
def regenerate_thumbs (env : RegenEnv) (force : Bool)
    (instances : List RegenInstance) (storage0 : List String) :
    Except PipeErr (List Classification × List String) :=
  regenGo env force instances [] storage0

/-! ## Spec-side comparison definitions

The following definitions transcribe the *specification's* words (not the
source); each theorem comparing one of them with a source-derived
definition is a refinement statement or a counterexample. -/

/-- Per the spec (§4.2): "the original filename's extension (substring
after the last `.`)". -/
def suffixAfterLastDot (s : String) : String :=
  String.mk ((s.data.reverse.takeWhile (fun c => c ≠ '.')).reverse)

/-- Rounding to the nearest integer with ties away from zero — the
rounding rule asserted by claim C6. -/
def roundTiesAway (q : ℚ) : ℤ :=
  if 0 ≤ q then ⌊q + 1 / 2⌋ else -⌊-q + 1 / 2⌋

/-- `computeScale` exactly as claim C6 words it: per-axis factors, larger
on crop / smaller otherwise, unchanged when the factor is ≥ 1 and
upscaling is disallowed, else both dimensions scaled and rounded with
ties away from zero. -/
def computeScaleClaim (imageSize targetSize : ℕ × ℕ)
    (cropRequested upscaleAllowed : Bool) : ℕ × ℕ :=
  let fx : ℚ := (targetSize.1 : ℚ) / (imageSize.1 : ℚ)
  let fy : ℚ := (targetSize.2 : ℚ) / (imageSize.2 : ℚ)
  let factor := if cropRequested then max fx fy else min fx fy
  if 1 ≤ factor ∧ ¬upscaleAllowed then imageSize
  else ((roundTiesAway ((imageSize.1 : ℚ) * factor)).toNat,
    (roundTiesAway ((imageSize.2 : ℚ) * factor)).toNat)

/-- Rounding to the nearest integer with ties to the even neighbour,
written as the nearest-integer characterization (distance to floor
versus distance to ceiling, even pick on a tie). -/
def roundHalfEvenSpec (q : ℚ) : ℤ :=
  if |q - (⌊q⌋ : ℚ)| < |q - (⌈q⌉ : ℚ)| then ⌊q⌋
  else if |q - (⌈q⌉ : ℚ)| < |q - (⌊q⌋ : ℚ)| then ⌈q⌉
  else if ⌊q⌋ % 2 = 0 then ⌊q⌋ else ⌈q⌉

/-- `computeScale` as the amended claim C6 words it, with the tie-break
corrected to round-half-to-even (Python 3 `round`). -/
def computeScaleSpecHalfEven (imageSize targetSize : ℕ × ℕ)
    (cropRequested upscaleAllowed : Bool) : ℕ × ℕ :=
  let fx : ℚ := (targetSize.1 : ℚ) / (imageSize.1 : ℚ)
  let fy : ℚ := (targetSize.2 : ℚ) / (imageSize.2 : ℚ)
  let factor := if cropRequested then max fx fy else min fx fy
  if 1 ≤ factor ∧ ¬upscaleAllowed then imageSize
  else ((roundHalfEvenSpec ((imageSize.1 : ℚ) * factor)).toNat,
    (roundHalfEvenSpec ((imageSize.2 : ℚ) * factor)).toNat)

/-- The per-variant pipeline exactly as claim C3 words it: "if the spec
carries a CropDirective, crop the scaled image ... using `resolveCrop`'s
offsets" computed *from that spec's own crop directive* — i.e. the
source's `create_and_store_thumb` with the spec's directive passed
through instead of being replaced by the literal `"center"`. -/
def createThumbSpecDirective (field : FieldCfg) (selfName : String) (image : PImage)
    (thumb_name : String) (thumb_options : ThumbOptions) : Except PipeErr ThumbArtifact :=
  match thumb_options.size with
  | SizeSpec.notTuple => Except.error (PipeErr.unreadableSize "incorrect size specifications")
  | SizeSpec.tup w h =>
    let upscale := thumb_options.upscale.getD true
    let crop_option : Option String :=
      if optStrTruthy thumb_options.crop then thumb_options.crop else none
    let thumb_filename := calc_thumb_filename field selfName thumb_name
    let file_extension := get_thumbnail_format field selfName
    match create_thumbnail image (w, h) crop_option upscale with
    | Except.error e => Except.error (PipeErr.thumbnailParse e)
    | Except.ok image2 =>
      Except.ok { filename := thumb_filename, image := image2, format := file_extension }

/-- A concrete URL environment (deterministic storage URL resolver, one
configured thumb, cache buster `"v2"`) used to evaluate `generate_url`
at a specific input. -/
def urlEnvC : UrlEnv :=
  { storageUrl := fun _ => "http://media.example.com/up/photo.png",
    selfName := "up/photo.png",
    field := ⟨[("small", ⟨SizeSpec.tup 80 60, none, none⟩)], some "JPEG"⟩,
    mediaCacheBuster := "v2" }

/-! # Theorems -/

/-! ## C1 — variant failure handling in `generate_thumbs` -/

lemma create_ok_filename (field : FieldCfg) (selfName : String) (image : PImage)
    (tn : String) (topts : ThumbOptions) (a : ThumbArtifact)
    (h : create_and_store_thumb field selfName image tn topts = Except.ok a) :
    a.filename = calc_thumb_filename field selfName tn := by
  simp only [create_and_store_thumb] at h
  split at h
  · cases h
  · split at h
    · cases h
    · simp only [Except.ok.injEq] at h
      rw [← h]

lemma generateLoop_error_of_split (field : FieldCfg) (selfName : String) (image : PImage)
    (tn : String) (topts : ThumbOptions) (post : List (String × ThumbOptions)) (e : PipeErr)
    (herr : create_and_store_thumb field selfName image tn topts = Except.error e) :
    ∀ (pre : List (String × ThumbOptions)) (stored : List ThumbArtifact) (att : List String),
      (∀ p ∈ pre, ∃ a, create_and_store_thumb field selfName image p.1 p.2 = Except.ok a) →
      (generateLoop field selfName image (pre ++ (tn, topts) :: post) stored att).result =
          Except.error (GenErr.variantErr e) ∧
        (generateLoop field selfName image (pre ++ (tn, topts) :: post) stored att).attempted =
          att ++ pre.map Prod.fst ++ [tn] ∧
        (generateLoop field selfName image
            (pre ++ (tn, topts) :: post) stored att).stored.map (fun a => a.filename) =
          stored.map (fun a => a.filename) ++
            pre.map (fun p => calc_thumb_filename field selfName p.1) := by
  intro pre
  induction pre with
  | nil =>
    intro stored att _
    simp [generateLoop, herr]
  | cons p ps ih =>
    intro stored att hpre
    obtain ⟨a, ha⟩ := hpre p (List.mem_cons_self p ps)
    have htail : ∀ q ∈ ps, ∃ a, create_and_store_thumb field selfName image q.1 q.2 = Except.ok a :=
      fun q hq => hpre q (List.mem_cons_of_mem p hq)
    have := ih (stored ++ [a]) (att ++ [p.1]) htail
    simpa [generateLoop, ha, create_ok_filename field selfName image p.1 p.2 a ha,
      List.append_assoc] using this

/-- Claim C1 is false on the code: with the spec sequence
`[("bad", non-tuple size), ("good", 10×10)]`, the failure of the first
variant means the second variant is never attempted (the attempted list
is `["bad"]`, not `["bad", "good"]`), and no aggregate result is
produced — the exception propagates. -/
theorem c1_counterexample :
    generate_thumbs
        ⟨[("bad", ⟨SizeSpec.notTuple, none, none⟩),
          ("good", ⟨SizeSpec.tup 10 10, none, none⟩)], some "JPEG"⟩
        "photo.png" "photo.png" ⟨some (PImage.source 100 100 "RGB" false)⟩ =
      { result := Except.error (GenErr.variantErr
          (PipeErr.unreadableSize "incorrect size specifications")),
        stored := [], attempted := ["bad"] } ∧
    "good" ∉ (generate_thumbs
        ⟨[("bad", ⟨SizeSpec.notTuple, none, none⟩),
          ("good", ⟨SizeSpec.tup 10 10, none, none⟩)], some "JPEG"⟩
        "photo.png" "photo.png" ⟨some (PImage.source 100 100 "RGB" false)⟩).attempted := by
  constructor
  · decide
  · decide

/-- Claim C1 amended: when one variant of `generate_thumbs` fails after
the preceding variants succeeded, the loop aborts — exactly the variants
up to and including the failing one are attempted, the remaining ones
are not, the failure is surfaced by propagating the exception to the
caller (there is no aggregate result), and the artifacts stored before
the failure remain stored: the stored filenames are exactly those of
the preceding successful variants. -/
theorem c1_variant_failure_aborts_loop (field : FieldCfg) (selfName name : String)
    (content : ContentModel) (image : PImage)
    (pre : List (String × ThumbOptions)) (tn : String) (topts : ThumbOptions)
    (post : List (String × ThumbOptions)) (e : PipeErr)
    (hdec : content.decoded = some image)
    (hthumbs : field.thumbs = pre ++ (tn, topts) :: post)
    (hpre : ∀ p ∈ pre, ∃ a, create_and_store_thumb field selfName image p.1 p.2 = Except.ok a)
    (herr : create_and_store_thumb field selfName image tn topts = Except.error e) :
    (generate_thumbs field selfName name content).result =
        Except.error (GenErr.variantErr e) ∧
      (generate_thumbs field selfName name content).attempted = pre.map Prod.fst ++ [tn] ∧
      (generate_thumbs field selfName name content).stored.map (fun a => a.filename) =
        pre.map (fun p => calc_thumb_filename field selfName p.1) := by
  unfold generate_thumbs
  rw [hdec, hthumbs]
  simpa using generateLoop_error_of_split field selfName image tn topts post e herr pre [] [] hpre

lemma scale_10_none :
    scale (PImage.convertOp (PImage.source 10 10 "RGB" false) "RGB") (10, 10) none true =
      PImage.resizeOp (PImage.convertOp (PImage.source 10 10 "RGB" false) "RGB") 10 10 := by
  unfold scale
  simp only [PImage.width, PImage.height, optStrTruthy, min_def, round_to_int]
  norm_num
  decide

lemma create_a_10_ok :
    create_and_store_thumb
        ⟨[("a", ⟨SizeSpec.tup 10 10, none, none⟩), ("bad", ⟨SizeSpec.notTuple, none, none⟩)],
          some "JPEG"⟩
        "photo.png" (PImage.source 10 10 "RGB" false) "a" ⟨SizeSpec.tup 10 10, none, none⟩ =
      Except.ok
        { filename := "photo_a.jpeg",
          image := PImage.resizeOp
            (PImage.convertOp (PImage.source 10 10 "RGB" false) "RGB") 10 10,
          format := "jpeg" } := by
  simp only [create_and_store_thumb, create_thumbnail,
    show convert_colorspace (PImage.source 10 10 "RGB" false) "RGB" =
      PImage.convertOp (PImage.source 10 10 "RGB" false) "RGB" from by decide,
    show optStrTruthy (none : Option String) = false from rfl,
    Bool.false_eq_true, if_false, Option.getD, scale_10_none]
  decide

/-- Witness for C1's amended theorem at a concrete input: the first
variant succeeds and its artifact remains stored, the second variant
fails and aborts the loop. -/
theorem c1_variant_failure_aborts_loop_witness :
    (generate_thumbs
        ⟨[("a", ⟨SizeSpec.tup 10 10, none, none⟩), ("bad", ⟨SizeSpec.notTuple, none, none⟩)],
          some "JPEG"⟩
        "photo.png" "photo.png" ⟨some (PImage.source 10 10 "RGB" false)⟩).result =
        Except.error (GenErr.variantErr
          (PipeErr.unreadableSize "incorrect size specifications")) ∧
      (generate_thumbs
        ⟨[("a", ⟨SizeSpec.tup 10 10, none, none⟩), ("bad", ⟨SizeSpec.notTuple, none, none⟩)],
          some "JPEG"⟩
        "photo.png" "photo.png" ⟨some (PImage.source 10 10 "RGB" false)⟩).attempted =
        ["a", "bad"] ∧
      ((generate_thumbs
        ⟨[("a", ⟨SizeSpec.tup 10 10, none, none⟩), ("bad", ⟨SizeSpec.notTuple, none, none⟩)],
          some "JPEG"⟩
        "photo.png" "photo.png" ⟨some (PImage.source 10 10 "RGB" false)⟩).stored.map
          (fun a => a.filename)) = ["photo_a.jpeg"] := by
  have h := c1_variant_failure_aborts_loop
    ⟨[("a", ⟨SizeSpec.tup 10 10, none, none⟩), ("bad", ⟨SizeSpec.notTuple, none, none⟩)],
      some "JPEG"⟩
    "photo.png" "photo.png" ⟨some (PImage.source 10 10 "RGB" false)⟩
    (PImage.source 10 10 "RGB" false)
    [("a", ⟨SizeSpec.tup 10 10, none, none⟩)] "bad" ⟨SizeSpec.notTuple, none, none⟩ []
    (PipeErr.unreadableSize "incorrect size specifications")
    rfl rfl
    (by
      intro p hp
      rw [List.mem_singleton] at hp
      subst hp
      exact ⟨_, create_a_10_ok⟩)
    (by decide)
  refine ⟨h.1, ?_, ?_⟩
  · rw [h.2.1]
    decide
  · rw [h.2.2]
    decide

/-! ## C2 — corrupt bytes through `save` -/

/-- Claim C2 is half right and the code is buggy: on undecodable bytes
the decode failure happens before the variant loop, so zero thumbnail
artifacts are stored — but the caller does not see
`UploadedImageIsUnreadableError`.  The Python 3 code reads
`exc.message` (`fields.py` line 104), an attribute Python 3 exceptions
no longer have, so the handler itself raises `AttributeError`. -/
theorem c2_unreadable_bytes_raise_attribute_error :
    save ⟨[("t", ⟨SizeSpec.tup 80 60, none, none⟩)], some "JPEG"⟩
        "photo.png" "photo.png" ⟨none⟩ =
      { originalSaved := true, stored := [],
        result := Except.error SaveErr.attributeError } ∧
    (save ⟨[("t", ⟨SizeSpec.tup 80 60, none, none⟩)], some "JPEG"⟩
        "photo.png" "photo.png" ⟨none⟩).result ≠
      Except.error (SaveErr.unreadable "We were unable to read the uploaded image.") := by
  constructor
  · decide
  · decide

/-! ## C4 — `delete` and per-variant Storage failures -/

/-- Claim C4 (and the method's own docstring, "Fails silently if there
are errors deleting the thumbnails") is contradicted by the code: the
delete loop has no exception handling, so a `StorageError` raised for
the first thumbnail propagates to the caller, the second thumbnail's
deletion is never requested, and the original is never deleted. -/
theorem c4_delete_propagates_storage_error :
    delete ⟨[("a", ⟨SizeSpec.tup 10 10, none, none⟩),
        ("b", ⟨SizeSpec.tup 20 20, none, none⟩)], some "JPEG"⟩
      "photo.png" (fun fn => fn == "photo_a.jpeg") =
    { attempted := ["photo_a.jpeg"], originalDeleted := false,
      result := Except.error "StorageError: photo_a.jpeg" } := by
  decide

/-! ## C7 — range and midpoint behaviour of `get_cropping_offset` -/

/-- Claim C7: for every percentage token (in range or not) and every
slack `s ≥ 0`, `get_cropping_offset` succeeds with an integer in
`[0, s]` (out-of-range percentages are clamped, not rejected), and for
the `50` token the result is within rounding tolerance of `s / 2`. -/
theorem c7_cropping_offset_in_range (tok : String) (v : ℕ) (s : ℚ)
    (htok : parseCropToken tok = some (v, CropUnit.percent)) (hs : 0 ≤ s) :
    ∃ r : ℤ, get_cropping_offset tok s = Except.ok r ∧ 0 ≤ r ∧ (r : ℚ) ≤ s ∧
      (v = 50 → |(r : ℚ) - s / 2| < 1) := by
  refine ⟨⌊max 0 (min (s * (v : ℚ) / 100) s)⌋, ?_, ?_, ?_, ?_⟩
  · unfold get_cropping_offset
    rw [htok]
  · exact Int.floor_nonneg.2 (le_max_left _ _)
  · exact le_trans (Int.floor_le _) (max_le hs (min_le_right _ _))
  · intro hv
    subst hv
    have hval : s * ((50 : ℕ) : ℚ) / 100 = s / 2 := by push_cast; ring
    rw [hval, min_eq_left (by linarith), max_eq_right (by linarith)]
    have h1 := Int.floor_le (s / 2)
    have h2 := Int.lt_floor_add_one (s / 2)
    rw [abs_sub_lt_iff]
    constructor
    · linarith
    · linarith

/-- Witness for C7 at the token `"50%"` and slack `7`. -/
theorem c7_cropping_offset_in_range_witness :
    ∃ r : ℤ, get_cropping_offset "50%" 7 = Except.ok r ∧ 0 ≤ r ∧ (r : ℚ) ≤ 7 ∧
      (50 = 50 → |(r : ℚ) - 7 / 2| < 1) :=
  c7_cropping_offset_in_range "50%" 50 7 (by decide) (by norm_num)

/-! ## C8 — `get_thumbnail_format` resolution -/

lemma rsplitLast_of_mem (sep : Char) (s : String) (h : sep ∈ s.data) :
    rsplitLast sep s = String.mk ((s.data.reverse.takeWhile (fun c => c ≠ sep)).reverse) := by
  unfold rsplitLast rsplit1
  have hne : s.data.reverse.dropWhile (fun c => decide (c ≠ sep)) ≠ [] := by
    intro hnil
    have := List.dropWhile_eq_nil_iff.1 hnil sep (List.mem_reverse.2 h)
    simp at this
  rw [List.span_eq_take_drop]
  obtain ⟨c, t, hct⟩ := List.exists_cons_of_ne_nil hne
  rw [hct]

/-- Claim C8: a configured (truthy) override format is returned
lower-cased; with no override the result is the substring after the last
`.` of the stored name, verbatim; in particular the format of
`photo.PNG` resolves to `"PNG"` without an override and to `"jpeg"` with
override `"jpeg"`. -/
theorem c8_thumbnail_format_resolution (fmt : Option String)
    (thumbs : List (String × ThumbOptions)) (name : String) :
    (∀ f, fmt = some f → f ≠ "" → get_thumbnail_format ⟨thumbs, fmt⟩ name = pyLower f) ∧
    (fmt = none → ('.') ∈ name.data →
      get_thumbnail_format ⟨thumbs, fmt⟩ name = suffixAfterLastDot name) ∧
    get_thumbnail_format ⟨[], none⟩ "photo.PNG" = "PNG" ∧
    get_thumbnail_format ⟨[], some "jpeg"⟩ "photo.PNG" = "jpeg" := by
  refine ⟨?_, ?_, by decide, by decide⟩
  · intro f hf hne
    subst hf
    obtain ⟨l⟩ := f
    cases l with
    | nil => exact absurd rfl hne
    | cons c cs => rfl
  · intro hf hdot
    subst hf
    exact rsplitLast_of_mem '.' name hdot

/-- Witness for C8's hypothesized parts at concrete inputs. -/
theorem c8_thumbnail_format_resolution_witness :
    get_thumbnail_format ⟨[], some "JPEG"⟩ "x.png" = pyLower "JPEG" ∧
    get_thumbnail_format ⟨[], none⟩ "x.png" = suffixAfterLastDot "x.png" :=
  ⟨(c8_thumbnail_format_resolution (some "JPEG") [] "x.png").1 "JPEG" rfl (by decide),
    (c8_thumbnail_format_resolution none [] "x.png").2.1 rfl (by decide)⟩

/-! ## C10 — default `thumbnail_format` -/

/-- Claim C10: a field constructed without an explicit
`thumbnail_format` keyword gets the default override `"JPEG"`, so
`get_thumbnail_format` answers `"jpeg"` for every stored name and the
extension-inference branch is never taken under the default
configuration. -/
theorem c10_default_format_is_jpeg (thumbsKw : Option (List (String × ThumbOptions)))
    (name : String) :
    (imageWithThumbsFieldInit thumbsKw none).thumbnailFormat = some "JPEG" ∧
    get_thumbnail_format (imageWithThumbsFieldInit thumbsKw none) name = "jpeg" := by
  exact ⟨rfl, rfl⟩

/-! ## C6 — `scale` geometry -/

lemma round_to_int_eq_half_even (q : ℚ) : round_to_int q = roundHalfEvenSpec q := by
  simp only [round_to_int, roundHalfEvenSpec]
  have hfl := Int.floor_le q
  have hfl1 := Int.lt_floor_add_one q
  by_cases h0 : q = (⌊q⌋ : ℚ)
  · have hceil : ⌈q⌉ = ⌊q⌋ := by
      conv_lhs => rw [h0]
      simp
    have hr : q - (⌊q⌋ : ℚ) = 0 := sub_eq_zero_of_eq h0
    rw [hceil, hr]
    norm_num
  · have hlt : (⌊q⌋ : ℚ) < q := lt_of_le_of_ne hfl (fun h => h0 h.symm)
    have hceil : ⌈q⌉ = ⌊q⌋ + 1 := by
      rw [Int.ceil_eq_iff]
      constructor
      · push_cast
        linarith
      · push_cast
        linarith
    rw [hceil]
    have habs1 : |q - (⌊q⌋ : ℚ)| = q - (⌊q⌋ : ℚ) := abs_of_nonneg (by linarith)
    have habs2 : |q - ((⌊q⌋ + 1 : ℤ) : ℚ)| = (⌊q⌋ : ℚ) + 1 - q := by
      rw [abs_of_nonpos]
      · push_cast
        ring
      · push_cast
        linarith
    push_cast
    push_cast at habs1 habs2
    rw [habs1, habs2]
    split_ifs with h1 h2 h3 h4 h5 <;> first
      | rfl
      | (exfalso; linarith)

/-- Claim C6 amended: `scale` picks the larger per-axis factor when a
truthy crop option is present and the smaller otherwise; when the chosen
factor is ≥ 1 and upscaling is disallowed the image size is unchanged;
otherwise both dimensions are scaled by the factor and rounded to the
nearest integer with ties to the *even* neighbour (Python 3 `round`),
not away from zero. -/
theorem c6_scale_refines_half_even_spec (image : PImage) (target_size : ℕ × ℕ)
    (crop_option : Option String) (upscale : Bool) :
    ((scale image target_size crop_option upscale).width,
      (scale image target_size crop_option upscale).height) =
      computeScaleSpecHalfEven (image.width, image.height) target_size
        (optStrTruthy crop_option) upscale := by
  simp only [scale, computeScaleSpecHalfEven]
  set fx : ℚ := (target_size.1 : ℚ) / (image.width : ℚ) with hfx
  set fy : ℚ := (target_size.2 : ℚ) / (image.height : ℚ) with hfy
  set F : ℚ := if optStrTruthy crop_option = true then max fx fy else min fx fy with hF
  by_cases hr : F < 1 ∨ upscale = true
  · rw [if_pos hr, if_neg ?hcond]
    case hcond =>
      intro hc
      rcases hr with h | h
      · exact absurd hc.1 (not_le.2 h)
      · exact hc.2 h
    simp [PImage.width, PImage.height, round_to_int_eq_half_even]
  · push_neg at hr
    rw [if_neg (by push_neg; exact hr), if_pos ⟨hr.1, hr.2⟩]

/-- Claim C6 as stated is false: its "ties away from zero" rounding
disagrees with the code.  For a 4×5 image fit into a (2, 100) box the
factor is exactly 1/2, so the height 5·(1/2) = 2.5 is a tie: the code
(Python 3 banker's rounding) resizes to (2, 2) while the claim's
rounding demands (2, 3).  All numbers involved are exactly representable
floats, so CPython computes the same values. -/
theorem c6_counterexample :
    ((scale (PImage.source 4 5 "RGB" false) (2, 100) none false).width,
      (scale (PImage.source 4 5 "RGB" false) (2, 100) none false).height) = (2, 2) ∧
    computeScaleClaim (4, 5) (2, 100) false false = (2, 3) ∧
    ((2 : ℕ), (2 : ℕ)) ≠ ((2 : ℕ), (3 : ℕ)) := by
  refine ⟨?_, ?_, by decide⟩
  · unfold scale
    simp only [PImage.width, PImage.height, optStrTruthy, Bool.false_eq_true, if_false,
      min_def, round_to_int]
    norm_num
    decide
  · unfold computeScaleClaim roundTiesAway
    simp only [min_def]
    norm_num
    decide

/-! ## C3 — which crop directive the pipeline uses -/

lemma parse_crop_center_ok (xy_image xy_window : ℚ × ℚ) :
    parse_crop "center" xy_image xy_window =
      Except.ok
        (⌊max 0 (min ((xy_image.1 - xy_window.1) * 50 / 100) (xy_image.1 - xy_window.1))⌋,
          ⌊max 0 (min ((xy_image.2 - xy_window.2) * 50 / 100) (xy_image.2 - xy_window.2))⌋) := by
  unfold parse_crop get_cropping_offset
  rw [show splitChar ' ' "center" = ["center"] from by decide]
  simp only [show xAliasPercent "center" = some "50%" from by decide,
    show parseCropToken "50%" = some (50, CropUnit.percent) from by decide]
  norm_num

lemma convert_rgb_200 :
    convert_colorspace (PImage.source 200 100 "RGB" false) "RGB" =
      PImage.convertOp (PImage.source 200 100 "RGB" false) "RGB" := by
  decide

lemma scale_200_center :
    scale (PImage.convertOp (PImage.source 200 100 "RGB" false) "RGB") (50, 50)
      (some "center") true =
    PImage.resizeOp (PImage.convertOp (PImage.source 200 100 "RGB" false) "RGB") 100 50 := by
  unfold scale
  simp only [PImage.width, PImage.height, optStrTruthy, max_def, round_to_int]
  norm_num
  decide

lemma scale_200_left :
    scale (PImage.convertOp (PImage.source 200 100 "RGB" false) "RGB") (50, 50)
      (some "left") true =
    PImage.resizeOp (PImage.convertOp (PImage.source 200 100 "RGB" false) "RGB") 100 50 := by
  unfold scale
  simp only [PImage.width, PImage.height, optStrTruthy, max_def, round_to_int]
  norm_num
  decide

lemma parse_crop_left_100_50 :
    parse_crop "left" (((100 : ℕ) : ℚ), ((50 : ℕ) : ℚ)) (((50 : ℕ) : ℚ), ((50 : ℕ) : ℚ)) =
      Except.ok (0, 0) := by
  unfold parse_crop get_cropping_offset
  rw [show splitChar ' ' "left" = ["left"] from by decide]
  simp only [show xAliasPercent "left" = some "0%" from by decide,
    show parseCropToken "0%" = some (0, CropUnit.percent) from by decide,
    show parseCropToken "50%" = some (50, CropUnit.percent) from by decide]
  norm_num

/-- Claim C3 is false on the code: `create_and_store_thumb` does not use
the spec's own crop directive.  With directive `"left"` on a 200×100
source and a 50×50 window the code crops the rectangle (25, 0, 75, 50)
(the offsets `resolveCrop` computes for `"center"`), while the claim's
pipeline (`createThumbSpecDirective`, which feeds the spec's own
directive to `resolveCrop`) crops (0, 0, 50, 50). -/
theorem c3_counterexample :
    create_and_store_thumb ⟨[], some "JPEG"⟩ "photo.png" (PImage.source 200 100 "RGB" false)
        "t" ⟨SizeSpec.tup 50 50, none, some "left"⟩ =
      Except.ok
        { filename := "photo_t.jpeg",
          image := PImage.cropRectOp
            (PImage.resizeOp (PImage.convertOp (PImage.source 200 100 "RGB" false) "RGB") 100 50)
            25 0 75 50,
          format := "jpeg" } ∧
    createThumbSpecDirective ⟨[], some "JPEG"⟩ "photo.png" (PImage.source 200 100 "RGB" false)
        "t" ⟨SizeSpec.tup 50 50, none, some "left"⟩ =
      Except.ok
        { filename := "photo_t.jpeg",
          image := PImage.cropRectOp
            (PImage.resizeOp (PImage.convertOp (PImage.source 200 100 "RGB" false) "RGB") 100 50)
            0 0 50 50,
          format := "jpeg" } ∧
    PImage.cropRectOp
        (PImage.resizeOp (PImage.convertOp (PImage.source 200 100 "RGB" false) "RGB") 100 50)
        25 0 75 50 ≠
      PImage.cropRectOp
        (PImage.resizeOp (PImage.convertOp (PImage.source 200 100 "RGB" false) "RGB") 100 50)
        0 0 50 50 := by
  refine ⟨?_, ?_, by decide⟩
  · simp only [create_and_store_thumb, create_thumbnail, crop, convert_rgb_200,
      show optStrTruthy (some "left") = true from by decide, if_true, Option.getD,
      scale_200_center]
    rw [parse_crop_center_ok]
    simp only [PImage.width, PImage.height]
    norm_num
    decide
  · simp only [createThumbSpecDirective, create_thumbnail, crop, convert_rgb_200,
      show optStrTruthy (some "left") = true from by decide, if_true, Option.getD,
      scale_200_left]
    simp only [PImage.width, PImage.height]
    rw [parse_crop_left_100_50]
    norm_num
    decide

/-- Claim C3 amended: whenever the spec carries a truthy crop directive,
the pipeline crops the scaled image to the rectangle
`[offsetX, offsetY, offsetX + width, offsetY + height]` whose offsets
`resolveCrop` computes from the fixed directive `"center"` — the spec's
own directive is consulted only for truthiness. -/
theorem c3_crop_uses_center_directive (field : FieldCfg) (selfName : String)
    (image : PImage) (thumb_name : String) (thumb_options : ThumbOptions) (w h : ℕ)
    (hsize : thumb_options.size = SizeSpec.tup w h)
    (hcrop : optStrTruthy thumb_options.crop = true) :
    ∃ ox oy : ℤ,
      parse_crop "center"
        (((scale (convert_colorspace image "RGB") (w, h) (some "center")
            (thumb_options.upscale.getD true)).width : ℚ),
          ((scale (convert_colorspace image "RGB") (w, h) (some "center")
            (thumb_options.upscale.getD true)).height : ℚ))
        ((w : ℚ), (h : ℚ)) = Except.ok (ox, oy) ∧
      create_and_store_thumb field selfName image thumb_name thumb_options =
        Except.ok
          { filename := calc_thumb_filename field selfName thumb_name,
            image := PImage.cropRectOp
              (scale (convert_colorspace image "RGB") (w, h) (some "center")
                (thumb_options.upscale.getD true))
              ox oy ((w : ℤ) + ox) ((h : ℤ) + oy),
            format := get_thumbnail_format field selfName } := by
  refine ⟨_, _, parse_crop_center_ok _ _, ?_⟩
  simp only [create_and_store_thumb, hsize, hcrop, if_true, create_thumbnail, crop,
    parse_crop_center_ok]
  norm_num

/-- Witness for C3's amended theorem at a concrete input. -/
theorem c3_crop_uses_center_directive_witness :
    ∃ ox oy : ℤ,
      parse_crop "center"
        (((scale (convert_colorspace (PImage.source 200 100 "RGB" false) "RGB") (50, 50)
            (some "center") true).width : ℚ),
          ((scale (convert_colorspace (PImage.source 200 100 "RGB" false) "RGB") (50, 50)
            (some "center") true).height : ℚ))
        (((50 : ℕ) : ℚ), ((50 : ℕ) : ℚ)) = Except.ok (ox, oy) ∧
      create_and_store_thumb ⟨[], some "JPEG"⟩ "photo.png" (PImage.source 200 100 "RGB" false)
          "t" ⟨SizeSpec.tup 50 50, none, some "left"⟩ =
        Except.ok
          { filename := calc_thumb_filename ⟨[], some "JPEG"⟩ "photo.png" "t",
            image := PImage.cropRectOp
              (scale (convert_colorspace (PImage.source 200 100 "RGB" false) "RGB") (50, 50)
                (some "center") true)
              ox oy (((50 : ℕ) : ℤ) + ox) (((50 : ℕ) : ℤ) + oy),
            format := get_thumbnail_format ⟨[], some "JPEG"⟩ "photo.png" } :=
  c3_crop_uses_center_directive ⟨[], some "JPEG"⟩ "photo.png"
    (PImage.source 200 100 "RGB" false) "t" ⟨SizeSpec.tup 50 50, none, some "left"⟩
    50 50 rfl (by decide)

/-! ## C9 — URL cache behaviour of `generate_url` -/

lemma bang_isEmpty_of_ne {l : List Char} (h : l ≠ []) : l.isEmpty = false := by
  cases l with
  | nil => exact absurd rfl h
  | cons c cs => rfl

lemma pyStrip_data_ne_nil (s : String) (c : Char) (l : List Char)
    (hdata : s.data = c :: l) (hc : chSpace c = false) : (pyStrip s).data ≠ [] := by
  unfold pyStrip
  rw [hdata]
  rw [show (c :: l).dropWhile chSpace = c :: l from by rw [List.dropWhile_cons, hc]; rfl]
  intro hnil
  replace hnil : (((c :: l).reverse.dropWhile chSpace).reverse : List Char) = [] := hnil
  rw [List.reverse_eq_nil_iff] at hnil
  have h2 := List.dropWhile_eq_nil_iff.1 hnil c (List.mem_reverse.2 (List.mem_cons_self c l))
  rw [hc] at h2
  exact Bool.false_ne_true h2

lemma pyReplace_data_ne_nil (s pat rep : String) (hs : s.data ≠ []) (hrep : rep.data ≠ []) :
    (pyReplace s pat rep).data ≠ [] := by
  unfold pyReplace
  cases hd : s.data with
  | nil => exact absurd hd hs
  | cons c cs =>
    show (replaceAux pat.data rep.data (c :: cs).length (c :: cs)) ≠ []
    rw [List.length_cons]
    rw [replaceAux]
    split_ifs with h
    · intro hnil
      rcases List.append_eq_nil.1 hnil with ⟨h1, _⟩
      exact hrep h1
    · intro hnil
      cases hnil

lemma slash_concat_data_ne_nil (a b : String) : ((a ++ "/" ++ b)).data ≠ [] := by
  rw [String.data_append, String.data_append]
  intro h
  rcases List.append_eq_nil.1 h with ⟨h1, _⟩
  rcases List.append_eq_nil.1 h1 with ⟨_, h3⟩
  cases h3

lemma append3_left_data_ne_nil (x y z : String) (hx : x.data ≠ []) :
    ((x ++ y ++ z)).data ≠ [] := by
  rw [String.data_append, String.data_append]
  intro h
  rcases List.append_eq_nil.1 h with ⟨h1, _⟩
  rcases List.append_eq_nil.1 h1 with ⟨h2, _⟩
  exact hx h2

lemma generateUrlMiss_url_ne_nil (env : UrlEnv) (cache : List (String × String))
    (t : String) (s b : Bool) (ck : Option String) (calls : ℕ) :
    ((generateUrlMiss env cache t s b ck calls).url).data ≠ [] := by
  simp only [generateUrlMiss]
  have h1 : ((rsplitHead '/' (rsplitHead '?' (env.storageUrl env.selfName)) ++ "/" ++
      pyBasename (calc_thumb_filename env.field env.selfName t))).data ≠ [] :=
    slash_concat_data_ne_nil _ _
  set core := rsplitHead '/' (rsplitHead '?' (env.storageUrl env.selfName)) ++ "/" ++
    pyBasename (calc_thumb_filename env.field env.selfName t) with hcore
  set u2 := if (b && optStrTruthy (some env.mediaCacheBuster)) = true then
      core ++ "?cbust=" ++ env.mediaCacheBuster
    else core with hu2
  have h2 : u2.data ≠ [] := by
    rw [hu2]
    split_ifs with hb
    · exact append3_left_data_ne_nil _ _ _ h1
    · exact h1
  set u3 := if s = true then pyReplace u2 "http://" "https://" else u2 with hu3
  have h3 : u3.data ≠ [] := by
    rw [hu3]
    split_ifs with hssl
    · exact pyReplace_data_ne_nil _ _ _ h2 (by decide)
    · exact h2
  split_ifs with hkey
  · exact h3
  · exact h3

lemma generateUrlMiss_cache_of_ne (env : UrlEnv) (cache : List (String × String))
    (t : String) (s b : Bool) (k : String) (calls : ℕ) (hk : k.data ≠ []) :
    (generateUrlMiss env cache t s b (some k) calls).cache =
      (k, (generateUrlMiss env cache t s b (some k) calls).url) :: cache := by
  simp only [generateUrlMiss, optStrTruthy, cacheSet, bang_isEmpty_of_ne hk, Bool.not_false,
    if_true, Option.getD]

lemma generateUrlMiss_calls (env : UrlEnv) (cache : List (String × String))
    (t : String) (s b : Bool) (ck : Option String) (calls : ℕ) :
    (generateUrlMiss env cache t s b ck calls).storageUrlCalls = calls + 1 := by
  simp only [generateUrlMiss]
  split_ifs <;> rfl

/-- Claim C9 is partly false: with a live cache the second identical
call does return the byte-identical URL, but it does not make zero
Storage URL resolver calls — building the cache key reads `self.url`,
which resolves the original's URL through the storage backend, so the
second call makes exactly one resolver call (the first makes two). -/
theorem c9_counterexample :
    (generate_url urlEnvC (generate_url urlEnvC [] "small" false true true).cache
        "small" false true true).url =
      (generate_url urlEnvC [] "small" false true true).url ∧
    (generate_url urlEnvC [] "small" false true true).storageUrlCalls = 2 ∧
    (generate_url urlEnvC (generate_url urlEnvC [] "small" false true true).cache
        "small" false true true).storageUrlCalls = 1 ∧
    (generate_url urlEnvC (generate_url urlEnvC [] "small" false true true).cache
        "small" false true true).storageUrlCalls ≠ 0 := by
  refine ⟨by decide, by decide, by decide, by decide⟩

/-- Claim C9 amended: for every environment, calling `generate_url`
twice with identical arguments (cache checking on, starting from a cold
cache) returns byte-identical URL strings — so a cold cache reproduces
exactly what a warm cache serves — leaves the cache unchanged, and the
second (cache-hit) call makes exactly one Storage URL resolver call,
for the original file's URL used in the cache key; the thumbnail's URL
is never resolved through Storage at all. -/
theorem c9_cached_url_deterministic (env : UrlEnv) (thumb_name : String)
    (ssl_mode cache_bust : Bool) :
    (generate_url env (generate_url env [] thumb_name ssl_mode true cache_bust).cache
        thumb_name ssl_mode true cache_bust).url =
      (generate_url env [] thumb_name ssl_mode true cache_bust).url ∧
    (generate_url env (generate_url env [] thumb_name ssl_mode true cache_bust).cache
        thumb_name ssl_mode true cache_bust).cache =
      (generate_url env [] thumb_name ssl_mode true cache_bust).cache ∧
    (generate_url env (generate_url env [] thumb_name ssl_mode true cache_bust).cache
        thumb_name ssl_mode true cache_bust).storageUrlCalls = 1 := by
  simp only [generate_url, cacheGet, List.find?, Option.map_none', if_true]
  set k := pyStrip ("Thumbcache_" ++ env.storageUrl env.selfName ++ "_" ++ thumb_name ++
    if ssl_mode = true then "_ssl" else "") with hkdef
  have hkne : k.data ≠ [] := by
    rw [hkdef]
    refine pyStrip_data_ne_nil _ 'T'
      ("humbcache_".data ++ (env.storageUrl env.selfName).data ++ "_".data ++ thumb_name.data ++
        (if ssl_mode = true then "_ssl" else "").data) ?_ (by decide)
    simp only [String.data_append]
    rfl
  rw [generateUrlMiss_cache_of_ne env [] thumb_name ssl_mode cache_bust k 1 hkne]
  have hU := generateUrlMiss_url_ne_nil env [] thumb_name ssl_mode cache_bust (some k) 1
  have hfind : List.find? (fun p => (p.1 == k))
      [(k, (generateUrlMiss env [] thumb_name ssl_mode cache_bust (some k) 1).url)] =
      some (k, (generateUrlMiss env [] thumb_name ssl_mode cache_bust (some k) 1).url) := by
    simp
  rw [hfind]
  simp only [Option.map_some']
  simp only [optStrTruthy, bang_isEmpty_of_ne hU, Bool.not_false, if_true]
  exact ⟨trivial, trivial, trivial⟩

/-! ## C5 -- batch regeneration idempotence -/


lemma generateLoop_ok_names (field : FieldCfg) (selfName : String) (image : PImage) :
    ∀ (l : List (String × ThumbOptions)) (acc : List ThumbArtifact) (att : List String),
      (generateLoop field selfName image l acc att).result = Except.ok () →
      (generateLoop field selfName image l acc att).stored.map (fun a => a.filename) =
        acc.map (fun a => a.filename) ++ l.map (fun t => calc_thumb_filename field selfName t.1) := by
  intro l
  induction l with
  | nil =>
    intro acc att _
    simp [generateLoop]
  | cons hd tl ih =>
    obtain ⟨tn, topt⟩ := hd
    intro acc att h
    simp only [generateLoop] at h ⊢
    cases hc : create_and_store_thumb field selfName image tn topt with
    | ok a =>
      rw [hc] at h
      have h2 := ih (acc ++ [a]) (att ++ [tn]) h
      simpa [create_ok_filename field selfName image tn topt a hc] using h2
    | error e =>
      rw [hc] at h
      simp at h

lemma generate_thumbs_ok_names (field : FieldCfg) (selfName name : String)
    (content : ContentModel)
    (h : (generate_thumbs field selfName name content).result = Except.ok ()) :
    (generate_thumbs field selfName name content).stored.map (fun a => a.filename) =
      field.thumbs.map (fun t => calc_thumb_filename field selfName t.1) := by
  cases hd : content.decoded with
  | none =>
    rw [generate_thumbs, hd] at h
    cases h
  | some img =>
    rw [generate_thumbs, hd] at h ⊢
    simpa using generateLoop_ok_names field selfName img field.thumbs [] [] h

lemma regenStep_none (env : RegenEnv) (force : Bool) (inst : RegenInstance)
    (tr st : List String) (hf : inst.file = none) :
    regenStep env force inst tr st = Except.ok (Classification.skippedNoFile, tr, st) := by
  rw [regenStep, hf]

lemma regenStep_already (env : RegenEnv) (force : Bool) (inst : RegenInstance)
    (tr st : List String) (n : String) (hf : inst.file = some n)
    (hb : pyBasename n ∈ tr) :
    regenStep env force inst tr st = Except.ok (Classification.skippedAlready, tr, st) := by
  rw [regenStep, hf]
  simp [hb]

lemma get_missing_nil_of_sub (env : RegenEnv) (st : List String) (n : String)
    (h : ∀ t ∈ env.field.thumbs, calc_thumb_filename env.field n t.1 ∈ st) :
    get_missing_thumbnails env st n = [] := by
  rw [get_missing_thumbnails, List.filterMap_eq_nil_iff]
  intro t ht
  rw [if_pos (h t ht)]

lemma regenStep_exists (env : RegenEnv) (inst : RegenInstance)
    (tr st : List String) (n : String) (hf : inst.file = some n)
    (hb : pyBasename n ∉ tr)
    (hsub : ∀ t ∈ env.field.thumbs, calc_thumb_filename env.field n t.1 ∈ st) :
    regenStep env false inst tr st =
      Except.ok (Classification.skippedExists, pyBasename n :: tr, st) := by
  have hmiss := get_missing_nil_of_sub env st n hsub
  rw [regenStep, hf]
  have hneeds : needs_regeneration env false st n = false := by
    rw [needs_regeneration, if_neg (by simp), hmiss]
    rfl
  simp [hb, hneeds, hmiss]



lemma sub_of_get_missing_nil (env : RegenEnv) (st : List String) (n : String)
    (h : get_missing_thumbnails env st n = []) :
    ∀ t ∈ env.field.thumbs, calc_thumb_filename env.field n t.1 ∈ st := by
  intro t ht
  have := List.filterMap_eq_nil_iff.1 h t ht
  by_cases hin : calc_thumb_filename env.field n t.1 ∈ st
  · exact hin
  · rw [if_neg hin] at this
    cases this

lemma regenReadAndGen_mono_tracker (env : RegenEnv) (fname file_name : String)
    (tr st : List String) (c : Classification) (tr2 st2 : List String)
    (h : regenReadAndGen env fname file_name tr st = Except.ok (c, tr2, st2)) :
    st ⊆ st2 ∧ (tr2 = tr ∨ tr2 = file_name :: tr) := by
  cases hr : env.readContent fname with
  | none =>
    simp only [regenReadAndGen, hr, Except.ok.injEq, Prod.mk.injEq] at h
    obtain ⟨-, h2, h3⟩ := h
    subst h2
    subst h3
    exact ⟨fun x hx => hx, Or.inl rfl⟩
  | some content =>
    simp only [regenReadAndGen, hr] at h
    cases hgen : (generate_thumbs env.field fname file_name content).result with
    | ok u =>
      simp only [hgen, Except.ok.injEq, Prod.mk.injEq] at h
      obtain ⟨-, h2, h3⟩ := h
      subst h2
      subst h3
      exact ⟨List.subset_append_left _ _, Or.inr rfl⟩
    | error ge =>
      cases ge with
      | decodeIOError m =>
        simp only [hgen, Except.ok.injEq, Prod.mk.injEq] at h
        obtain ⟨-, h2, h3⟩ := h
        subst h2
        subst h3
        exact ⟨List.subset_append_left _ _, Or.inl rfl⟩
      | variantErr e =>
        cases e with
        | unreadableSize m =>
          simp only [hgen, Except.ok.injEq, Prod.mk.injEq] at h
          obtain ⟨-, h2, h3⟩ := h
          subst h2
          subst h3
          exact ⟨List.subset_append_left _ _, Or.inl rfl⟩
        | thumbnailParse m =>
          simp only [hgen] at h
          simp at h

lemma regenStep_mono_tracker (env : RegenEnv) (force : Bool) (inst : RegenInstance)
    (tr st : List String) (c : Classification) (tr2 st2 : List String)
    (h : regenStep env force inst tr st = Except.ok (c, tr2, st2)) :
    st ⊆ st2 ∧ (tr2 = tr ∨ ∃ n, inst.file = some n ∧ tr2 = pyBasename n :: tr) := by
  cases hf : inst.file with
  | none =>
    rw [regenStep_none env force inst tr st hf] at h
    simp only [Except.ok.injEq, Prod.mk.injEq] at h
    obtain ⟨-, h2, h3⟩ := h
    subst h2
    subst h3
    exact ⟨fun x hx => hx, Or.inl rfl⟩
  | some n =>
    simp only [regenStep, hf] at h
    by_cases hb : pyBasename n ∈ tr
    · rw [if_pos hb] at h
      simp only [Except.ok.injEq, Prod.mk.injEq] at h
      obtain ⟨-, h2, h3⟩ := h
      subst h2
      subst h3
      exact ⟨fun x hx => hx, Or.inl rfl⟩
    · rw [if_neg hb] at h
      by_cases hneeds : needs_regeneration env force st n = true
      · rw [if_pos hneeds] at h
        rcases regenReadAndGen_mono_tracker env n (pyBasename n) tr st c tr2 st2 h with ⟨hsub, hor⟩
        refine ⟨hsub, ?_⟩
        rcases hor with h | h
        · exact Or.inl h
        · exact Or.inr ⟨n, rfl, h⟩
      · rw [if_neg hneeds] at h
        by_cases hmiss : get_missing_thumbnails env st n = []
        · rw [if_pos hmiss] at h
          simp only [Except.ok.injEq, Prod.mk.injEq] at h
          obtain ⟨-, h2, h3⟩ := h
          subst h2
          subst h3
          exact ⟨fun x hx => hx, Or.inr ⟨n, rfl, rfl⟩⟩
        · rw [if_neg hmiss] at h
          rcases regenReadAndGen_mono_tracker env n (pyBasename n) tr st c tr2 st2 h with ⟨hsub, hor⟩
          refine ⟨hsub, ?_⟩
          rcases hor with h | h
          · exact Or.inl h
          · exact Or.inr ⟨n, rfl, h⟩



lemma regenReadAndGen_thumbs (env : RegenEnv) (fname file_name : String)
    (tr st : List String) (c : Classification) (tr2 st2 : List String)
    (h : regenReadAndGen env fname file_name tr st = Except.ok (c, tr2, st2))
    (hc1 : c ≠ Classification.errorMissingSource)
    (hc2 : c ≠ Classification.errorCorrupt) :
    ∀ t ∈ env.field.thumbs, calc_thumb_filename env.field fname t.1 ∈ st2 := by
  cases hr : env.readContent fname with
  | none =>
    simp only [regenReadAndGen, hr, Except.ok.injEq, Prod.mk.injEq] at h
    exact absurd h.1.symm hc1
  | some content =>
    simp only [regenReadAndGen, hr] at h
    cases hgen : (generate_thumbs env.field fname file_name content).result with
    | ok u =>
      simp only [hgen, Except.ok.injEq, Prod.mk.injEq] at h
      obtain ⟨-, -, h3⟩ := h
      subst h3
      intro t ht
      apply List.mem_append_right
      rw [generate_thumbs_ok_names env.field fname file_name content (by rw [hgen])]
      exact List.mem_map_of_mem _ ht
    | error ge =>
      cases ge with
      | decodeIOError m =>
        simp only [hgen, Except.ok.injEq, Prod.mk.injEq] at h
        exact absurd h.1.symm hc2
      | variantErr e =>
        cases e with
        | unreadableSize m =>
          simp only [hgen, Except.ok.injEq, Prod.mk.injEq] at h
          exact absurd h.1.symm hc2
        | thumbnailParse m =>
          simp only [hgen] at h
          simp at h

lemma isEmpty_false_of_needs_false (env : RegenEnv) (st : List String) (n : String)
    (h : ¬needs_regeneration env false st n = true) :
    get_missing_thumbnails env st n = [] := by
  rw [needs_regeneration, if_neg (by simp)] at h
  rcases hm : get_missing_thumbnails env st n with _ | ⟨a, l⟩
  · rfl
  · rw [hm] at h
    simp [List.isEmpty] at h

lemma crop_center_ok (image : PImage) (size : ℕ × ℕ) :
    ∃ img2, crop image size "center" = Except.ok img2 := by
  simp only [crop, parse_crop_center_ok]
  exact ⟨_, rfl⟩

lemma create_thumbnail_center_ok (image : PImage) (size : ℕ × ℕ) (upscale : Bool) :
    ∃ img2, create_thumbnail image size (some "center") upscale = Except.ok img2 := by
  obtain ⟨img2, h2⟩ :=
    crop_center_ok (scale (convert_colorspace image "RGB") size (some "center") upscale) size
  refine ⟨img2, ?_⟩
  simp only [create_thumbnail,
    show (!(String.data "center").isEmpty) = true from by decide, eq_self_iff_true, if_true]
  exact h2

lemma create_and_store_total (field : FieldCfg) (selfName : String) (image : PImage)
    (tn : String) (topts : ThumbOptions) :
    (∃ a, create_and_store_thumb field selfName image tn topts = Except.ok a) ∨
      create_and_store_thumb field selfName image tn topts =
        Except.error (PipeErr.unreadableSize "incorrect size specifications") := by
  cases hsize : topts.size with
  | notTuple =>
    right
    simp only [create_and_store_thumb, hsize]
  | tup w h =>
    left
    simp only [create_and_store_thumb, hsize]
    by_cases hcrop : optStrTruthy topts.crop = true
    · rw [if_pos hcrop]
      obtain ⟨img2, h2⟩ := create_thumbnail_center_ok image (w, h) (topts.upscale.getD true)
      rw [h2]
      exact ⟨_, rfl⟩
    · rw [if_neg hcrop]
      exact ⟨_, rfl⟩

lemma generateLoop_no_parse (field : FieldCfg) (selfName : String) (image : PImage) :
    ∀ (l : List (String × ThumbOptions)) (acc : List ThumbArtifact) (att : List String)
      (m : String),
      (generateLoop field selfName image l acc att).result ≠
        Except.error (GenErr.variantErr (PipeErr.thumbnailParse m)) := by
  intro l
  induction l with
  | nil =>
    intro acc att m h
    simp [generateLoop] at h
  | cons hd tl ih =>
    obtain ⟨tn, topt⟩ := hd
    intro acc att m h
    simp only [generateLoop] at h
    rcases create_and_store_total field selfName image tn topt with ⟨a, ha⟩ | ha
    · rw [ha] at h
      exact ih _ _ m h
    · rw [ha] at h
      simp at h

lemma generate_thumbs_no_parse (field : FieldCfg) (selfName name : String)
    (content : ContentModel) (m : String) :
    (generate_thumbs field selfName name content).result ≠
      Except.error (GenErr.variantErr (PipeErr.thumbnailParse m)) := by
  cases hd : content.decoded with
  | none =>
    rw [generate_thumbs, hd]
    simp
  | some img =>
    rw [generate_thumbs, hd]
    exact generateLoop_no_parse field selfName img field.thumbs [] [] m

lemma regenReadAndGen_isOk (env : RegenEnv) (fname file_name : String)
    (tr st : List String) :
    ∃ out, regenReadAndGen env fname file_name tr st = Except.ok out := by
  cases hr : env.readContent fname with
  | none =>
    exact ⟨(Classification.errorMissingSource, tr, st), by simp only [regenReadAndGen, hr]⟩
  | some content =>
    cases hgen : (generate_thumbs env.field fname file_name content).result with
    | ok u =>
      exact ⟨(Classification.processedOk, file_name :: tr,
          st ++ (generate_thumbs env.field fname file_name content).stored.map
            (fun a => a.filename)),
        by simp only [regenReadAndGen, hr, hgen]⟩
    | error ge =>
      cases ge with
      | decodeIOError m =>
        exact ⟨(Classification.errorCorrupt, tr,
            st ++ (generate_thumbs env.field fname file_name content).stored.map
              (fun a => a.filename)),
          by simp only [regenReadAndGen, hr, hgen]⟩
      | variantErr e =>
        cases e with
        | unreadableSize m =>
          exact ⟨(Classification.errorCorrupt, tr,
              st ++ (generate_thumbs env.field fname file_name content).stored.map
                (fun a => a.filename)),
            by simp only [regenReadAndGen, hr, hgen]⟩
        | thumbnailParse m =>
          exact absurd hgen (generate_thumbs_no_parse env.field fname file_name content m)

lemma regenStep_isOk (env : RegenEnv) (force : Bool) (inst : RegenInstance)
    (tr st : List String) :
    ∃ out, regenStep env force inst tr st = Except.ok out := by
  cases hf : inst.file with
  | none => exact ⟨_, regenStep_none env force inst tr st hf⟩
  | some n =>
    by_cases hb : pyBasename n ∈ tr
    · exact ⟨_, regenStep_already env force inst tr st n hf hb⟩
    · by_cases hneeds : needs_regeneration env force st n = true
      · obtain ⟨out, hout⟩ := regenReadAndGen_isOk env n (pyBasename n) tr st
        refine ⟨out, ?_⟩
        simp only [regenStep, hf]
        rw [if_neg hb, if_pos hneeds]
        exact hout
      · by_cases hmiss : get_missing_thumbnails env st n = []
        · refine ⟨(Classification.skippedExists, pyBasename n :: tr, st), ?_⟩
          simp only [regenStep, hf]
          rw [if_neg hb, if_neg hneeds, if_pos hmiss]
        · obtain ⟨out, hout⟩ := regenReadAndGen_isOk env n (pyBasename n) tr st
          refine ⟨out, ?_⟩
          simp only [regenStep, hf]
          rw [if_neg hb, if_neg hneeds, if_neg hmiss]
          exact hout

lemma regenReadAndGen_cases (env : RegenEnv) (fname file_name : String)
    (tr st : List String) (c : Classification) (tr2 st2 : List String)
    (h : regenReadAndGen env fname file_name tr st = Except.ok (c, tr2, st2)) :
    (c ≠ Classification.errorMissingSource ∧ c ≠ Classification.errorCorrupt ∧
      tr2 = file_name :: tr ∧
      ∀ t ∈ env.field.thumbs, calc_thumb_filename env.field fname t.1 ∈ st2) ∨
    ((c = Classification.errorMissingSource ∨ c = Classification.errorCorrupt) ∧
      tr2 = tr) := by
  have hcopy := h
  cases hr : env.readContent fname with
  | none =>
    simp only [regenReadAndGen, hr, Except.ok.injEq, Prod.mk.injEq] at h
    exact Or.inr ⟨Or.inl h.1.symm, h.2.1.symm⟩
  | some content =>
    simp only [regenReadAndGen, hr] at h
    cases hgen : (generate_thumbs env.field fname file_name content).result with
    | ok u =>
      simp only [hgen, Except.ok.injEq, Prod.mk.injEq] at h
      obtain ⟨h1, h2, -⟩ := h
      subst h1
      exact Or.inl ⟨by decide, by decide, h2.symm,
        regenReadAndGen_thumbs env fname file_name tr st _ tr2 st2 hcopy
          (by decide) (by decide)⟩
    | error ge =>
      cases ge with
      | decodeIOError m =>
        simp only [hgen, Except.ok.injEq, Prod.mk.injEq] at h
        exact Or.inr ⟨Or.inr h.1.symm, h.2.1.symm⟩
      | variantErr e =>
        cases e with
        | unreadableSize m =>
          simp only [hgen, Except.ok.injEq, Prod.mk.injEq] at h
          exact Or.inr ⟨Or.inr h.1.symm, h.2.1.symm⟩
        | thumbnailParse m =>
          simp only [hgen] at h
          simp at h

lemma regenStep_run_cases (env : RegenEnv) (inst : RegenInstance)
    (tr st : List String) (c : Classification) (tr2 st2 : List String) (n : String)
    (h : regenStep env false inst tr st = Except.ok (c, tr2, st2))
    (hf : inst.file = some n) :
    (pyBasename n ∈ tr ∧ c = Classification.skippedAlready ∧ tr2 = tr ∧ st2 = st) ∨
    (c ≠ Classification.errorMissingSource ∧ c ≠ Classification.errorCorrupt ∧
      tr2 = pyBasename n :: tr ∧
      ∀ t ∈ env.field.thumbs, calc_thumb_filename env.field n t.1 ∈ st2) ∨
    ((c = Classification.errorMissingSource ∨ c = Classification.errorCorrupt) ∧
      tr2 = tr) := by
  by_cases hb : pyBasename n ∈ tr
  · rw [regenStep_already env false inst tr st n hf hb] at h
    simp only [Except.ok.injEq, Prod.mk.injEq] at h
    exact Or.inl ⟨hb, h.1.symm, h.2.1.symm, h.2.2.symm⟩
  · simp only [regenStep, hf] at h
    rw [if_neg hb] at h
    by_cases hneeds : needs_regeneration env false st n = true
    · rw [if_pos hneeds] at h
      rcases regenReadAndGen_cases env n (pyBasename n) tr st c tr2 st2 h with
        ⟨hc1, hc2, htr, hth⟩ | hcase
      · exact Or.inr (Or.inl ⟨hc1, hc2, htr, hth⟩)
      · exact Or.inr (Or.inr hcase)
    · rw [if_neg hneeds] at h
      have hmiss := isEmpty_false_of_needs_false env st n hneeds
      rw [if_pos hmiss] at h
      simp only [Except.ok.injEq, Prod.mk.injEq] at h
      obtain ⟨h1, h2, h3⟩ := h
      subst h1
      subst h3
      exact Or.inr (Or.inl ⟨by decide, by decide, h2.symm,
        sub_of_get_missing_nil env st n hmiss⟩)

lemma regenGo_mono (env : RegenEnv) (force : Bool) :
    ∀ (insts : List RegenInstance) (tr st : List String) (cs : List Classification)
      (stEnd : List String),
      regenGo env force insts tr st = Except.ok (cs, stEnd) → st ⊆ stEnd := by
  intro insts
  induction insts with
  | nil =>
    intro tr st cs stEnd h
    simp only [regenGo, Except.ok.injEq, Prod.mk.injEq] at h
    obtain ⟨-, h2⟩ := h
    subst h2
    exact fun x hx => hx
  | cons i rest ih =>
    intro tr st cs stEnd h
    rw [regenGo] at h
    cases hs : regenStep env force i tr st with
    | error e =>
      rw [hs] at h
      cases h
    | ok trip =>
      rw [hs] at h
      obtain ⟨c, tr2, st2⟩ := trip
      cases hg : regenGo env force rest tr2 st2 with
      | error e =>
        simp only [hg] at h
        simp at h
      | ok pr =>
        obtain ⟨cs', stEnd'⟩ := pr
        simp only [hg, Except.ok.injEq, Prod.mk.injEq] at h
        obtain ⟨-, h2⟩ := h
        subst h2
        exact (regenStep_mono_tracker env force i tr st c tr2 st2 hs).1.trans
          (ih tr2 st2 cs' _ hg)



lemma regenGo_second_run (env : RegenEnv) :
    ∀ (rest : List RegenInstance) (tr1 st1c : List String) (cs1 : List Classification)
      (st1e tr2 st2c : List String),
      regenGo env false rest tr1 st1c = Except.ok (cs1, st1e) →
      tr1 ⊆ tr2 → st1e ⊆ st2c →
      ∃ cs2 st2e, regenGo env false rest tr2 st2c = Except.ok (cs2, st2e) ∧
        List.Forall₂ (fun ic c2 =>
          (ic.1.file = none → c2 = Classification.skippedNoFile) ∧
          (∀ n, ic.1.file = some n → ic.2 ≠ Classification.errorMissingSource →
            ic.2 ≠ Classification.errorCorrupt →
            c2 = Classification.skippedExists ∨ c2 = Classification.skippedAlready))
          (rest.zip cs1) cs2 := by
  intro rest
  induction rest with
  | nil =>
    intro tr1 st1c cs1 st1e tr2 st2c h1 htr hst
    exact ⟨[], st2c, rfl, List.Forall₂.nil⟩
  | cons i rest' ih =>
    intro tr1 st1c cs1 st1e tr2 st2c h1 htr hst
    rw [regenGo] at h1
    cases hs1 : regenStep env false i tr1 st1c with
    | error e =>
      rw [hs1] at h1
      cases h1
    | ok trip =>
      rw [hs1] at h1
      obtain ⟨c1, tr1', st1c'⟩ := trip
      cases hg1 : regenGo env false rest' tr1' st1c' with
      | error e =>
        simp only [hg1] at h1
        simp at h1
      | ok pr =>
        obtain ⟨cs1', st1e'⟩ := pr
        simp only [hg1, Except.ok.injEq, Prod.mk.injEq] at h1
        obtain ⟨hcs, hstE⟩ := h1
        subst hcs
        subst hstE
        cases hf : i.file with
        | none =>
          rw [regenStep_none env false i tr1 st1c hf] at hs1
          simp only [Except.ok.injEq, Prod.mk.injEq] at hs1
          obtain ⟨hs1a, hs1b, hs1c⟩ := hs1
          subst hs1a
          subst hs1b
          subst hs1c
          obtain ⟨cs2', st2e, h2run, hfa⟩ := ih tr1 st1c cs1' st1e' tr2 st2c hg1 htr hst
          refine ⟨Classification.skippedNoFile :: cs2', st2e, ?_, ?_⟩
          · simp only [regenGo, regenStep_none env false i tr2 st2c hf, h2run]
          · refine List.Forall₂.cons ⟨fun _ => rfl, ?_⟩ hfa
            intro m hm
            rw [hf] at hm
            cases hm
        | some n =>
          rcases regenStep_run_cases env i tr1 st1c c1 tr1' st1c' n hs1 hf with
            ⟨hb, hc1, htr1, hst1⟩ | ⟨hc1, hc2, htr1, hth⟩ | ⟨hc1, htr1⟩
          · subst htr1
            subst hst1
            obtain ⟨cs2', st2e, h2run, hfa⟩ := ih tr1' st1c' cs1' st1e' tr2 st2c hg1 htr hst
            refine ⟨Classification.skippedAlready :: cs2', st2e, ?_, ?_⟩
            · simp only [regenGo, regenStep_already env false i tr2 st2c n hf (htr hb), h2run]
            · refine List.Forall₂.cons ⟨?_, fun m hm _ _ => Or.inr rfl⟩ hfa
              intro h0
              rw [hf] at h0
              cases h0
          · have hth2 : ∀ t ∈ env.field.thumbs, calc_thumb_filename env.field n t.1 ∈ st2c :=
              fun t ht =>
                hst (regenGo_mono env false rest' tr1' st1c' cs1' st1e' hg1 (hth t ht))
            by_cases hb2 : pyBasename n ∈ tr2
            · have htr' : tr1' ⊆ tr2 := by
                rw [htr1]
                exact List.cons_subset.2 ⟨hb2, htr⟩
              obtain ⟨cs2', st2e, h2run, hfa⟩ := ih tr1' st1c' cs1' st1e' tr2 st2c hg1 htr' hst
              refine ⟨Classification.skippedAlready :: cs2', st2e, ?_, ?_⟩
              · simp only [regenGo, regenStep_already env false i tr2 st2c n hf hb2, h2run]
              · refine List.Forall₂.cons ⟨?_, fun m hm _ _ => Or.inr rfl⟩ hfa
                intro h0
                rw [hf] at h0
                cases h0
            · have htr' : tr1' ⊆ pyBasename n :: tr2 := by
                rw [htr1]
                exact List.cons_subset.2
                  ⟨List.mem_cons_self _ _, htr.trans (List.subset_cons_self _ _)⟩
              obtain ⟨cs2', st2e, h2run, hfa⟩ :=
                ih tr1' st1c' cs1' st1e' (pyBasename n :: tr2) st2c hg1 htr' hst
              refine ⟨Classification.skippedExists :: cs2', st2e, ?_, ?_⟩
              · simp only [regenGo, regenStep_exists env i tr2 st2c n hf hb2 hth2, h2run]
              · refine List.Forall₂.cons ⟨?_, fun m hm _ _ => Or.inl rfl⟩ hfa
                intro h0
                rw [hf] at h0
                cases h0
          · obtain ⟨⟨c2s, tr2s, st2s⟩, hs2⟩ := regenStep_isOk env false i tr2 st2c
            have hmono2 := regenStep_mono_tracker env false i tr2 st2c c2s tr2s st2s hs2
            have htr2sub : tr2 ⊆ tr2s := by
              rcases hmono2.2 with h' | ⟨m, hm, h'⟩
              · rw [h']
                exact fun x hx => hx
              · rw [h']
                exact List.subset_cons_self _ _
            have htr' : tr1' ⊆ tr2s := by
              rw [htr1]
              exact htr.trans htr2sub
            have hst' : st1e' ⊆ st2s := hst.trans hmono2.1
            obtain ⟨cs2', st2e, h2run, hfa⟩ :=
              ih tr1' st1c' cs1' st1e' tr2s st2s hg1 htr' hst'
            refine ⟨c2s :: cs2', st2e, ?_, ?_⟩
            · simp only [regenGo, hs2, h2run]
            · refine List.Forall₂.cons ⟨?_, ?_⟩ hfa
              · intro h0
                rw [hf] at h0
                cases h0
              · intro m hm hne1 hne2
                rcases hc1 with h' | h'
                · exact absurd h' hne1
                · exact absurd h' hne2

/-- Claim C5 amended: after a completed batch-regeneration run without
`force` (including runs that ended with per-item errors), a second run
over the unchanged dataset and the resulting storage always completes,
and per item (pairing each instance with its first-run classification):
an item with no file is classified SKIPPED_NO_FILE, and an item that
references a file and was not classified as an error in the first run is
classified SKIPPED_EXISTS — or SKIPPED_ALREADY_PROCESSED when its
basename duplicates an earlier item's.  The idempotence comes from
Storage existence checks alone: the dedup ledger starts empty on each
run, so re-running after partial failure reproduces the skip behaviour
for the already-completed items. -/
theorem c5_second_run_skips (env : RegenEnv) (instances : List RegenInstance)
    (st0 st1 : List String) (cs1 : List Classification)
    (h1 : regenerate_thumbs env false instances st0 = Except.ok (cs1, st1)) :
    ∃ cs2 st2, regenerate_thumbs env false instances st1 = Except.ok (cs2, st2) ∧
      List.Forall₂ (fun ic c2 =>
        (ic.1.file = none → c2 = Classification.skippedNoFile) ∧
        (∀ n, ic.1.file = some n → ic.2 ≠ Classification.errorMissingSource →
          ic.2 ≠ Classification.errorCorrupt →
          c2 = Classification.skippedExists ∨ c2 = Classification.skippedAlready))
        (instances.zip cs1) cs2 := by
  rw [regenerate_thumbs] at h1
  rw [regenerate_thumbs]
  exact regenGo_second_run env instances [] st0 cs1 st1 [] st1 h1
    (fun x hx => hx) (fun x hx => hx)

/-- Witness for C5's amended theorem at a concrete input whose first run
ends in partial failure: item 1's thumbnail exists (SKIPPED_EXISTS),
item 2 has no file (SKIPPED_NO_FILE), and item 3's source is missing
from storage (ERROR).  The theorem then describes the second run. -/
theorem c5_second_run_skips_witness :
    ∃ cs2 st2, regenerate_thumbs
        ⟨⟨[("t", ⟨SizeSpec.tup 10 10, none, none⟩)], some "JPEG"⟩, fun _ => none⟩
        false [⟨1, some "a/x.png"⟩, ⟨2, none⟩, ⟨3, some "b/y.png"⟩] ["a/x_t.jpeg"] =
        Except.ok (cs2, st2) ∧
      List.Forall₂ (fun ic c2 =>
        (ic.1.file = none → c2 = Classification.skippedNoFile) ∧
        (∀ n, ic.1.file = some n → ic.2 ≠ Classification.errorMissingSource →
          ic.2 ≠ Classification.errorCorrupt →
          c2 = Classification.skippedExists ∨ c2 = Classification.skippedAlready))
        (([⟨1, some "a/x.png"⟩, ⟨2, none⟩, ⟨3, some "b/y.png"⟩] :
            List RegenInstance).zip
          [Classification.skippedExists, Classification.skippedNoFile,
            Classification.errorMissingSource]) cs2 :=
  c5_second_run_skips
    ⟨⟨[("t", ⟨SizeSpec.tup 10 10, none, none⟩)], some "JPEG"⟩, fun _ => none⟩
    [⟨1, some "a/x.png"⟩, ⟨2, none⟩, ⟨3, some "b/y.png"⟩]
    ["a/x_t.jpeg"] ["a/x_t.jpeg"]
    [Classification.skippedExists, Classification.skippedNoFile,
      Classification.errorMissingSource]
    (by decide)

/-- Claim C5 as stated ("100% of items classified SKIPPED_EXISTS on the
second run") is false: an item with no file is classified
SKIPPED_NO_FILE on every run.  Here the run returns its storage
unchanged, so the stated equation describes both the first (successful,
error-free) and the second run, and its classification list is not all
SKIPPED_EXISTS. -/
theorem c5_counterexample :
    regenerate_thumbs
        ⟨⟨[("t", ⟨SizeSpec.tup 10 10, none, none⟩)], some "JPEG"⟩, fun _ => none⟩
        false [⟨1, some "a/x.png"⟩, ⟨2, none⟩] ["a/x_t.jpeg"] =
      Except.ok ([Classification.skippedExists, Classification.skippedNoFile],
        ["a/x_t.jpeg"]) ∧
    regenerate_thumbs
        ⟨⟨[("t", ⟨SizeSpec.tup 10 10, none, none⟩)], some "JPEG"⟩, fun _ => none⟩
        false [⟨1, some "a/x.png"⟩, ⟨2, none⟩] ["a/x_t.jpeg"] ≠
      Except.ok ([Classification.skippedExists, Classification.skippedExists],
        ["a/x_t.jpeg"]) := by
  refine ⟨by decide, by decide⟩


end Athumb
